/-
Verification of the alignai-mcp meeting pipeline against its specification.

This file gives a shallow embedding, in Lean 4, of the pure data-processing
core of the pipeline: the identity-resolution functions duplicated across the
agent modules, the recipient-email matcher of the content stage, the
performance-record filter, the professional-task filter, the summary
word-count gate, the JSON extraction helper, the parallel coordinator's
result-merging and persistence bookkeeping, and the surrounding pipeline
nodes.  Python dictionaries with optional keys are modelled by structures of
`Option` fields; a list element that is not a dict is modelled by a dedicated
constructor; Python exceptions crossing a boundary are modelled by `Except`;
results of external calls (the LLM, the database client) are parameters of
the node functions.  Theorems about the claims follow the definitions.
-/
import Mathlib

set_option maxRecDepth 100000

namespace AlignAI

/-! ## Python-modelling helpers -/

/-- Substring containment on strings: models the Python `in` operator for
`str`, including the fact that the empty string is contained in anything. -/
def strIn (needle hay : String) : Bool :=
  go needle.data hay.data
where
  go (n : List Char) : List Char → Bool
    | [] => n.isEmpty
    | c :: rest => n.isPrefixOf (c :: rest) || go n rest

/-- Models Python `str.lower()` (character-wise lowering). -/
def toLowerStr (s : String) : String := String.mk (s.data.map Char.toLower)

/-- Drop leading whitespace characters. -/
def dropWS : List Char → List Char
  | [] => []
  | c :: rest => if c.isWhitespace then dropWS rest else c :: rest

/-- Models Python `str.strip()` (remove leading and trailing whitespace). -/
def trimStr (s : String) : String :=
  String.mk ((dropWS ((dropWS s.data).reverse)).reverse)

/-- Models the Python idiom `s.lower().strip()`. -/
def lowerStrip (s : String) : String := trimStr (toLowerStr s)

/-- Models Python `s[:n]` for a string (first `n` characters). -/
def takeStr (s : String) (n : Nat) : String := String.mk (s.data.take n)

/-- Models Python `s.startswith(pre)`. -/
def startsWithStr (s pre : String) : Bool := pre.data.isPrefixOf s.data

/-- Models Python `s.endswith(post)`. -/
def endsWithStr (s post : String) : Bool := post.data.reverse.isPrefixOf s.data.reverse

/-- Models `", ".join(...)` and friends. -/
def joinSep (sep : String) : List String → String
  | [] => ""
  | [x] => x
  | x :: rest => x ++ sep ++ joinSep sep rest

/-- Helper of `pySplit`: split characters on whitespace runs, accumulating
the current word. -/
def pySplitAux : List Char → List Char → List String
  | acc, [] => if acc.isEmpty then [] else [String.mk acc]
  | acc, c :: rest =>
    if c.isWhitespace then
      (if acc.isEmpty then [] else [String.mk acc]) ++ pySplitAux [] rest
    else pySplitAux (acc ++ [c]) rest

/-- Models Python `s.split()` (split on whitespace runs, dropping empties). -/
def pySplit (s : String) : List String := pySplitAux [] s.data

/-- Truthiness of an optional string: a missing key and the empty string are
falsy, any other string is truthy. -/
def truthyOptStr : Option String → Bool
  | none => false
  | some s => s != ""

/-! ## Participant model

A participant record is a Python dict whose keys may be absent; each field is
therefore an `Option`.  A list element that is not a dict (skipped by the
`isinstance(participant, dict)` checks in the source) is the `nondict`
constructor of `PyEntry`. -/

structure Participant where
  id : Option String := none
  email : Option String := none
  firstName : Option String := none
  lastName : Option String := none
  name : Option String := none
  userName : Option String := none
deriving DecidableEq, Repr

inductive PyEntry where
  | dict (p : Participant)
  | nondict
deriving DecidableEq, Repr

/-- Models `participant.get("id", participant.get("email", dflt))`: the `id`
value if the key is present (even if empty), else the `email` value if that
key is present, else the default. -/
def idOrEmail (dflt : String) (p : Participant) : String :=
  match p.id with
  | some v => v
  | none =>
    match p.email with
    | some v => v
    | none => dflt

/-- Models `participant.get("email", participant.get("id", ""))`, the email
extraction used by the content-generation recipient matcher. -/
def emailOrId (p : Participant) : String :=
  match p.email with
  | some v => v
  | none =>
    match p.id with
    | some v => v
    | none => ""

/-- First dict entry of the list satisfying `hit` (non-dict entries are
skipped, as by the `isinstance` guards in the source loops). -/
def findDict (hit : Participant → Bool) : List PyEntry → Option Participant
  | [] => none
  | .nondict :: rest => findDict hit rest
  | .dict p :: rest => if hit p then some p else findDict hit rest

/-- First value produced by `f` over the dict entries of the list. -/
def firstSome (f : Participant → Option String) : List PyEntry → Option String
  | [] => none
  | .nondict :: rest => firstSome f rest
  | .dict p :: rest =>
    match f p with
    | some v => some v
    | none => firstSome f rest

/-! ## Identity resolution (agents/parallel_coordinator.py,
agents/task_identification.py, agents/content_generation.py)

The exact-match pass of `smart_match_participant_id` checks, per participant,
the combined `firstName lastName` string and then the single `name` field;
the second pass checks equality with `firstName` or `lastName` alone and then
substring containment against `name`. -/

/-- Full-name equality test of the exact matching pass. -/
def fullNameCond (nl : String) (p : Participant) : Bool :=
  match p.firstName, p.lastName with
  | some f, some l => nl == lowerStrip (f ++ " " ++ l)
  | _, _ => false

/-- Single-`name`-field equality test of the exact matching pass. -/
def nameFieldCond (nl : String) (p : Participant) : Bool :=
  match p.name with
  | some n => nl == lowerStrip n
  | none => false

/-- Condition of the first (exact) matching pass for one participant. -/
def exactNameHit (nl : String) (p : Participant) : Bool :=
  fullNameCond nl p || nameFieldCond nl p

/-- Condition of the second (first/last-name or containment) matching pass
for one participant. -/
def looseNameHit (nl : String) (p : Participant) : Bool :=
  (match p.firstName, p.lastName with
   | some f, some l => nl == lowerStrip f || nl == lowerStrip l
   | _, _ => false)
  ||
  (match p.name with
   | some n => strIn nl (lowerStrip n) || strIn (lowerStrip n) nl
   | none => false)

/-- Models `validIdOrEmail`: the id if truthy and not the sentinel `"ai"`,
else the email under the same conditions (the fallback-scan body shared by
`get_default_participant_id` in three modules). -/
def validIdOrEmail (p : Participant) : Option String :=
  let emailPart : Option String :=
    match p.email with
    | some e => if e != "" && e != "ai" then some e else none
    | none => none
  match p.id with
  | some i => if i != "" && i != "ai" then some i else emailPart
  | none => emailPart

/-- Models `get_default_participant_id` from task_identification.py,
content_generation.py and parallel_coordinator.py (the three copies are
identical): first participant with a truthy non-`"ai"` id, else with a truthy
non-`"ai"` email, else `"ai"`. -/
def get_default_participant_id (participants : List PyEntry) : String :=
  (firstSome validIdOrEmail participants).getD "ai"

/-- Models `smart_match_participant_id` from agents/parallel_coordinator.py
(lines 15-65).  On an empty name or an empty participant list it returns the
sentinel `"ai"` directly; a matched participant contributes
`participant.get("id", participant.get("email", "ai"))`. -/
def smart_match_participant_id_pc (name : String) (participants : List PyEntry) : String :=
  if name == "" || participants.isEmpty then "ai"
  else
    let nl := lowerStrip name
    match findDict (exactNameHit nl) participants with
    | some p => idOrEmail "ai" p
    | none =>
      match findDict (looseNameHit nl) participants with
      | some p => idOrEmail "ai" p
      | none => get_default_participant_id participants

/-- Models `smart_match_participant_id` from agents/task_identification.py
(lines 16-66); agents/content_generation.py (lines 17-68) has the identical
logic.  On an empty name or an empty participant list it goes straight to
`get_default_participant_id`; a matched participant contributes
`participant.get("id", participant.get("email", ""))`. -/
def smart_match_participant_id_ti (name : String) (participants : List PyEntry) : String :=
  if name == "" || participants.isEmpty then get_default_participant_id participants
  else
    let nl := lowerStrip name
    match findDict (exactNameHit nl) participants with
    | some p => idOrEmail "" p
    | none =>
      match findDict (looseNameHit nl) participants with
      | some p => idOrEmail "" p
      | none => get_default_participant_id participants

/-! ## Identity resolution, performance_record.py variant -/

/-- Exact pass of the performance-record matcher: full name, then `userName`,
then the single `name` field (performance_record.py lines 117-142). -/
def exactNameHitPR (nl : String) (p : Participant) : Bool :=
  (match p.firstName, p.lastName with
   | some f, some l => nl == lowerStrip (f ++ " " ++ l)
   | _, _ => false)
  ||
  (match p.userName with
   | some u => nl == lowerStrip u
   | none => false)
  ||
  (match p.name with
   | some n => nl == lowerStrip n
   | none => false)

/-- Second pass of the performance-record matcher: first/last-name equality,
then containment against `firstName` only (performance_record.py
lines 144-161). -/
def looseNameHitPR (nl : String) (p : Participant) : Bool :=
  (match p.firstName, p.lastName with
   | some f, some l => nl == lowerStrip f || nl == lowerStrip l
   | _, _ => false)
  ||
  (match p.firstName with
   | some f => strIn (lowerStrip f) nl || strIn nl (lowerStrip f)
   | none => false)

/-- Models `get_default_participant_id` from agents/performance_record.py
(lines 166-188): first id starting with `"user_"`, else first truthy id, else
the hard-coded admin id; the same hard-coded id is returned for an empty
participant list. -/
def get_default_participant_id_pr (participants : List PyEntry) : String :=
  match firstSome (fun p =>
      match p.id with
      | some i => if i != "" && startsWithStr i "user_" then some i else none
      | none => none) participants with
  | some v => v
  | none =>
    match firstSome (fun p =>
        match p.id with
        | some i => if i != "" then some i else none
        | none => none) participants with
    | some v => v
    | none => "user_329HS70oiTIrXPaoVmDkYwHgMp7"

/-- Models `smart_match_participant_id` from agents/performance_record.py
(lines 105-164). -/
def smart_match_participant_id_pr (name : String) (participants : List PyEntry) : String :=
  if name == "" || participants.isEmpty then get_default_participant_id_pr participants
  else
    let nl := lowerStrip name
    match findDict (exactNameHitPR nl) participants with
    | some p => idOrEmail "" p
    | none =>
      match findDict (looseNameHitPR nl) participants with
      | some p => idOrEmail "" p
      | none => get_default_participant_id_pr participants

/-! ## Recipient-email matching (agents/content_generation.py lines 70-205) -/

/-- Inequality against an optional creator email: Python compares a string
with `None` as unequal, hence the `Option`. -/
def neOpt (ce : Option String) (e : String) : Bool :=
  match ce with
  | some c => e != c
  | none => true

/-- Email admissibility check applied before appending in the exact pass of
`smart_match_participant_emails`: truthy, not already collected, not the
sentinel, and different from the creator email. -/
def emailOK (acc : List String) (ce : Option String) (e : String) : Bool :=
  e != "" && !(acc.contains e) && e != "ai" && neOpt ce e

/-- Admissibility check used when collecting candidates in the partial pass
(no duplicate check at collection time). -/
def ceOK (ce : Option String) (e : String) : Bool :=
  e != "" && e != "ai" && neOpt ce e

/-- Attempt of one name-equality branch of the exact email pass: when the
name condition holds and the participant's email passes `emailOK`, the email
is produced. -/
def exactTryEmail (hit : Bool) (acc : List String) (ce : Option String)
    (p : Participant) : Option String :=
  if hit then
    if emailOK acc ce (emailOrId p) then some (emailOrId p) else none
  else none

/-- Exact pass of `smart_match_participant_emails` for one recipient name:
the scan stops at the first participant whose full name or `name` field
matches and whose email passes `emailOK`; a name match whose email fails the
check does not stop the scan (content_generation.py lines 96-122). -/
def exactEmailScan (nl : String) (acc : List String) (ce : Option String) :
    List PyEntry → Option String
  | [] => none
  | .nondict :: rest => exactEmailScan nl acc ce rest
  | .dict p :: rest =>
    match exactTryEmail (fullNameCond nl p) acc ce p with
    | some e => some e
    | none =>
      match exactTryEmail (nameFieldCond nl p) acc ce p with
      | some e => some e
      | none => exactEmailScan nl acc ce rest

/-- Candidate list of one branch of the partial email pass. -/
def candEmailIf (hit : Bool) (ce : Option String) (p : Participant) : List String :=
  if hit then
    if ceOK ce (emailOrId p) then [emailOrId p] else []
  else []

/-- First/last-name equality test of the second matching pass. -/
def flNameCond (nl : String) (p : Participant) : Bool :=
  match p.firstName, p.lastName with
  | some f, some l => nl == lowerStrip f || nl == lowerStrip l
  | _, _ => false

/-- Containment test against the single `name` field of the second matching
pass. -/
def containNameCond (nl : String) (p : Participant) : Bool :=
  match p.name with
  | some n => strIn nl (lowerStrip n) || strIn (lowerStrip n) nl
  | none => false

/-- Partial pass of `smart_match_participant_emails` for one recipient name:
collects every candidate email from first/last-name equality and from `name`
containment (content_generation.py lines 125-143). -/
def partialEmailCandidates (nl : String) (ce : Option String) :
    List PyEntry → List String
  | [] => []
  | .nondict :: rest => partialEmailCandidates nl ce rest
  | .dict p :: rest =>
    candEmailIf (flNameCond nl p) ce p ++ candEmailIf (containNameCond nl p) ce p ++
      partialEmailCandidates nl ce rest

/-- Per-name step of `smart_match_participant_emails`: skip empty or
`"default"` names; append the exact match if found, else the first partial
candidate when it is not already collected (content_generation.py
lines 89-152; the one-candidate and many-candidate branches append the same
element). -/
def processRecipientName (ps : List PyEntry) (ce : Option String)
    (acc : List String) (name : String) : List String :=
  if name == "" || lowerStrip name == "default" then acc
  else
    let nl := lowerStrip name
    match exactEmailScan nl acc ce ps with
    | some e => acc ++ [e]
    | none =>
      match partialEmailCandidates nl ce ps with
      | [] => acc
      | e :: _ => if acc.contains e then acc else acc ++ [e]

/-- Models the creator-email lookup (content_generation.py lines 83-87): the
email of the first participant whose `id` value equals the exclusion id; no
lookup when the exclusion id is falsy, and a creator without an `id` key is
never found. -/
def creatorEmailOf (ps : List PyEntry) (excludeId : String) : Option String :=
  if excludeId == "" then none
  else firstSome (fun p => if p.id == some excludeId then some (emailOrId p) else none) ps

/-- Models `get_default_participant_email` (content_generation.py
lines 182-205): first non-excluded participant with a truthy non-`"ai"`
email, else id, else `"ai"`. -/
def get_default_participant_email (ps : List PyEntry) (excludeId : String) : String :=
  (firstSome (fun p =>
      if excludeId != "" && p.id == some excludeId then none
      else
        let idPart : Option String :=
          match p.id with
          | some i => if i != "" && i != "ai" then some i else none
          | none => none
        match p.email with
        | some e => if e != "" && e != "ai" then some e else idPart
        | none => idPart) ps).getD "ai"

/-- Accumulated list of matched recipient emails for a list of names. -/
def matchedEmails (names : List String) (ps : List PyEntry) (excludeId : String) :
    List String :=
  names.foldl (processRecipientName ps (creatorEmailOf ps excludeId)) []

/-- Models `smart_match_participant_emails` from agents/content_generation.py
(lines 70-159): comma-joined matched emails, or the default recipient email
when no name resolves or the inputs are empty. -/
def smart_match_participant_emails (names : List String) (ps : List PyEntry)
    (excludeId : String) : String :=
  if names.isEmpty || ps.isEmpty then get_default_participant_email ps excludeId
  else
    match matchedEmails names ps excludeId with
    | [] => get_default_participant_email ps excludeId
    | es => joinSep ", " es

/-! ## Data model (models/database_models.py), restricted to the fields the
pipeline core reads and writes -/

structure SubtaskM where
  content : String
  isDone : Bool
deriving DecidableEq, Repr

structure TaskM where
  organizationId : String
  departmentId : Option String
  createdBy : String
  title : String
  description : String
  assignedToId : String
  reportToId : Option String
  status : String
  priority : String
  highQualityCompletion : Bool
  subtasks : List SubtaskM
deriving DecidableEq, Repr

structure AttendeeM where
  name : String := ""
  role : Option String := none
  department : Option String := none
  matchConfidence : Option String := none
deriving DecidableEq, Repr

structure ActionItemM where
  description : String
  assignee : String
deriving DecidableEq, Repr

structure MeetingSummaryM where
  organizationId : String
  departmentId : Option String
  createdById : String
  title : String
  summary : String
  meetingDate : String
  attendees : List AttendeeM
  actionItems : List ActionItemM
deriving DecidableEq, Repr

structure ContentM where
  organizationId : String
  departmentId : Option String
  createdForId : String
  type : String
  content : String
  subject : String
  recipientEmail : String
deriving DecidableEq, Repr

structure PerfRecM where
  organizationId : String
  userId : String
  meetingId : String
  scoreType : String
  points : Int
  comment : String
deriving DecidableEq, Repr

/-! ## Content item construction (agents/content_generation.py lines 297-371)

A raw content item from the model is a dict; the `content` value may itself
be a nested object that the stage flattens to plain text. -/

/-- Text value inside a content section: either a string or a list of
strings (the `isinstance(section["text"], list)` branch). -/
inductive PyText where
  | str (s : String)
  | strs (l : List String)
deriving DecidableEq, Repr

/-- One element of the nested `summary` list of a structured content value;
non-dict elements are skipped by the flattener. -/
inductive SummaryItem where
  | sec (heading : Option String) (text : Option PyText)
  | nondict
deriving DecidableEq, Repr

/-- The `content` value of a raw content item: a plain string or a nested
object with `greeting`, `summary` and `closing` parts. -/
inductive PyContentVal where
  | str (s : String)
  | obj (greeting : Option String) (summary : Option (List SummaryItem))
      (closing : Option String)
deriving DecidableEq, Repr

/-- The `recipientNames` value may arrive as a list or as a bare string. -/
inductive PyStrOrList where
  | list (l : List String)
  | single (s : String)
deriving DecidableEq, Repr

/-- Raw content item produced by the model (fields the stage reads). -/
structure ContentData where
  type : Option String := none
  content : Option PyContentVal := none
  subject : Option String := none
  createdForName : Option String := none
  recipientNames : Option PyStrOrList := none
  recipientName : Option String := none
deriving DecidableEq, Repr

/-- Truthiness of a `PyText` value. -/
def truthyPyText : Option PyText → Bool
  | none => false
  | some (.str s) => s != ""
  | some (.strs l) => !l.isEmpty

/-- Flattening of one section of a structured content value
(content_generation.py lines 340-349). -/
def flattenSection : SummaryItem → List String
  | .nondict => []
  | .sec heading text =>
    (match heading with
     | some h => if h != "" then [h ++ ":"] else []
     | none => []) ++
    (if truthyPyText text then
      match text with
      | some (.strs l) => l
      | some (.str s) => [s]
      | none => []
     else []) ++
    [""]

/-- Flattening of a structured content value to plain text
(content_generation.py lines 331-354). -/
def flattenContentVal : PyContentVal → String
  | .str s => s
  | .obj greeting summary closing =>
    let parts :=
      (match greeting with
       | some g => if g != "" then [g, ""] else []
       | none => []) ++
      (match summary with
       | some l => if l.isEmpty then [] else l.flatMap flattenSection
       | none => []) ++
      (match closing with
       | some c => if c != "" then [c] else []
       | none => [])
    joinSep "\n" parts

/-- Normalisation of the `recipientNames` value (content_generation.py
lines 307-315): fall back to a singleton `recipientName` when
`recipientNames` is falsy, then coerce a bare string to a list. -/
def recipientNamesOf (cd : ContentData) : List String :=
  let rn := cd.recipientNames.getD (.list [])
  let falsy : Bool :=
    match rn with
    | .list l => l.isEmpty
    | .single s => s == ""
  let rn :=
    match cd.recipientName with
    | some r => if falsy then PyStrOrList.list [r] else rn
    | none => rn
  match rn with
  | .list l => l
  | .single s => if s != "" then [s] else ["default"]

/-- Models the per-item body of the conversion loop in `generate_content`
(content_generation.py lines 303-371): creator and recipient resolution, the
second-chance `"ai"` repairs, content flattening and the construction of the
`GeneratedContent` record.  `content_details_type` and
`content_details_subject` are the corresponding values of the stage's
`content_details` argument; `default_creator` is
`get_default_participant_id participants` computed once before the loop. -/
def processContentItem (organization_id : String) (department_id : Option String)
    (content_details_type content_details_subject : Option String)
    (participants : List PyEntry) (default_creator : String)
    (cd : ContentData) : ContentM :=
  let created_for_name := cd.createdForName.getD "default"
  let recipient_names := recipientNamesOf cd
  let created_for_id := smart_match_participant_id_ti created_for_name participants
  let recipient_emails := smart_match_participant_emails recipient_names participants created_for_id
  let created_for_id :=
    if created_for_id == "ai" && !participants.isEmpty then default_creator
    else created_for_id
  let recipient_emails :=
    if recipient_emails == "ai" && !participants.isEmpty then
      get_default_participant_email participants created_for_id
    else recipient_emails
  let content_value := flattenContentVal (cd.content.getD (.str ""))
  { organizationId := organization_id
    departmentId := department_id
    createdForId := created_for_id
    type := cd.type.getD (content_details_type.getD "email")
    content := content_value
    subject := cd.subject.getD (content_details_subject.getD "Meeting Follow-up")
    recipientEmail := recipient_emails }

/-! ## Performance-record mapping (agents/performance_record.py
lines 269-322) -/

/-- Numeric JSON value for the `points` field: an integer, or a value of a
non-numeric type (which the stage replaces by 0). -/
inductive PyNum where
  | int (n : Int)
  | other
deriving DecidableEq, Repr

/-- Raw performance record dict from the model. -/
structure PerfRecData where
  userName : Option String := none
  scoreType : Option String := none
  points : Option PyNum := none
  comment : Option String := none
deriving DecidableEq, Repr

/-- Element of the extracted records list: a dict or something else (the
`isinstance(record_data, dict)` guard skips the latter). -/
inductive RecEntry where
  | dict (r : PerfRecData)
  | nondict
deriving DecidableEq, Repr

/-- Models the per-record body of the mapping loop in
`generate_performance_records` (performance_record.py lines 276-319):
non-dict entries and entries with a blank `userName` are skipped; the
resolved user id is rejected only when it is falsy or the sentinel `"ai"`;
non-numeric points become 0 and the comment is truncated to 500
characters. -/
def processPerfRecord (participants : List PyEntry) (organization_id meeting_id : String) :
    RecEntry → Option PerfRecM
  | .nondict => none
  | .dict r =>
    let user_name := trimStr (r.userName.getD "")
    if user_name == "" then none
    else
      let user_id := smart_match_participant_id_pr user_name participants
      if user_id == "" || user_id == "ai" then none
      else
        some { organizationId := organization_id
               userId := user_id
               meetingId := meeting_id
               scoreType := r.scoreType.getD "meeting_performance"
               points :=
                 match r.points with
                 | some (.int n) => n
                 | some .other => 0
                 | none => 0
               comment := takeStr (r.comment.getD "") 500 }

/-- Mapping of the whole extracted records list to database-ready records
(the loop of performance_record.py lines 276-319 appends exactly the records
`processPerfRecord` accepts). -/
def mapPerfRecords (participants : List PyEntry) (organization_id meeting_id : String)
    (records_data : List RecEntry) : List PerfRecM :=
  records_data.filterMap (processPerfRecord participants organization_id meeting_id)

/-! ## Professional-task filtering (agents/task_identification.py
lines 88-121 and 190-248) -/

def unprofessional_keywords : List String :=
  ["lunch", "coffee", "party", "celebration", "birthday", "personal",
   "hangout", "social", "drinks", "outing", "gift", "fun", "team building"]

def work_related_keywords : List String :=
  ["project", "report", "meeting", "deadline", "deliverable", "client",
   "development", "analysis", "review", "document", "strategy", "task",
   "action item", "follow-up", "implementation", "research"]

/-- Subtask entry of a raw task dict: a dict with an optional `content` key,
or a bare string. -/
inductive SubEntry where
  | dict (content : Option String)
  | str (s : String)
deriving DecidableEq, Repr

/-- Raw task dict produced by the model (fields the stage reads). -/
structure TaskData where
  title : Option String := none
  description : Option String := none
  assignedToName : Option String := none
  subtasks : Option (List SubEntry) := none
deriving DecidableEq, Repr

/-- Lower-cased subtask texts as computed by the comprehension
`[subtask.get("content", "").lower() for subtask in ...]`; a bare-string
entry makes the comprehension raise `AttributeError`, modelled by `none`. -/
def subtaskTexts : List SubEntry → Option (List String)
  | [] => some []
  | .str _ :: _ => none
  | .dict c :: rest => (subtaskTexts rest).map (fun l => toLowerStr (c.getD "") :: l)

/-- Models `is_professional_task` (task_identification.py lines 88-121);
`none` models the `AttributeError` raised on a bare-string subtask entry,
which the per-task `try` of the caller turns into a drop. -/
def is_professional_task (td : TaskData) : Option Bool :=
  match subtaskTexts (td.subtasks.getD []) with
  | none => none
  | some subs =>
    let title := toLowerStr (td.title.getD "")
    let description := toLowerStr (td.description.getD "")
    if unprofessional_keywords.any (fun kw =>
        strIn kw title || strIn kw description || subs.any (fun s => strIn kw s)) then
      some false
    else if work_related_keywords.any (fun kw =>
        strIn kw title || strIn kw description || subs.any (fun s => strIn kw s)) then
      some true
    else
      some false

/-- Subtask list construction (task_identification.py lines 202-209): dict
entries contribute their truthy `content`, bare strings are appended as
given. -/
def mkSubtasks : List SubEntry → List SubtaskM
  | [] => []
  | .dict c :: rest =>
    (match c with
     | some s => if s != "" then [{ content := s, isDone := false }] else []
     | none => []) ++ mkSubtasks rest
  | .str s :: rest => { content := s, isDone := false } :: mkSubtasks rest

/-- Models the per-task body of the conversion loop in `generate_tasks`
(task_identification.py lines 196-244): the professionalism filter, subtask
construction, assignee resolution with the `"ai"` repair, and the `Task`
record construction.  `default_assignee` is
`get_default_participant_id participants` computed once before the loop. -/
def processTaskData (participants : List PyEntry) (organization_id : String)
    (department_id : Option String) (default_assignee : String)
    (td : TaskData) : Option TaskM :=
  match is_professional_task td with
  | none => none
  | some false => none
  | some true =>
    let subtasks := mkSubtasks (td.subtasks.getD [])
    let assigned_to_name := td.assignedToName.getD "default"
    let assigned_to_id :=
      if assigned_to_name != "" && toLowerStr assigned_to_name != "default" then
        smart_match_participant_id_ti assigned_to_name participants
      else default_assignee
    let assigned_to_id :=
      if assigned_to_id == "ai" && !participants.isEmpty then default_assignee
      else assigned_to_id
    some { organizationId := organization_id
           departmentId := department_id
           createdBy := "ai"
           title := td.title.getD "Generated Task"
           description := td.description.getD ""
           assignedToId := assigned_to_id
           reportToId := none
           status := "todo"
           priority := "medium"
           highQualityCompletion := false
           subtasks := subtasks }

/-- Conversion of the whole raw task list (task_identification.py
lines 190-248). -/
def convertTasks (participants : List PyEntry) (organization_id : String)
    (department_id : Option String) (tasks_data : List TaskData) : List TaskM :=
  tasks_data.filterMap
    (processTaskData participants organization_id department_id
      (get_default_participant_id participants))

/-- Lower-cased texts a reader would call "the subtask texts" of a raw task
(dict contents and bare strings alike); used to state the filtering claim. -/
def claimSubTexts : List SubEntry → List String
  | [] => []
  | .dict c :: rest => toLowerStr (c.getD "") :: claimSubTexts rest
  | .str s :: rest => toLowerStr s :: claimSubTexts rest

/-- A keyword occurs in the title, the description or some subtask text of a
raw task. -/
def mentionsKw (td : TaskData) (kw : String) : Bool :=
  strIn kw (toLowerStr (td.title.getD "")) || strIn kw (toLowerStr (td.description.getD "")) ||
    (claimSubTexts (td.subtasks.getD [])).any (fun s => strIn kw s)

/-! ## Summary word-count gate (agents/summary_generation.py lines 397-414) -/

/-- Word count of a summary as computed by `len(s.split())`. -/
def word_count (s : String) : Nat := (pySplit s).length

/-- Models the acceptance step of one refinement iteration in
`generate_summary` (summary_generation.py lines 399-414): a successfully
parsed refined summary replaces the current one exactly when its word count
lies in the 100-200 band, and the required fields and enhanced attendees are
reapplied to whichever version is kept. -/
def refine_accept (summary_data refined_summary : MeetingSummaryM)
    (organization_id : String) (department_id : Option String)
    (meeting_date : String) (enhanced_attendees : List AttendeeM) : MeetingSummaryM :=
  let wc := word_count refined_summary.summary
  let kept := if 100 ≤ wc ∧ wc ≤ 200 then refined_summary else summary_data
  { kept with
    organizationId := organization_id
    departmentId := department_id
    createdById := "ai"
    meetingDate := meeting_date
    attendees := enhanced_attendees }

/-! ## JSON extraction (agents/performance_record.py lines 56-103)

`json.loads` is external library code; it is modelled from the spec by a
small JSON parser over characters (`json_loads` below): `none` models a
`JSONDecodeError`.  Numeric literals with a fraction or exponent part are
kept as their literal text in the `numLit` constructor. -/

inductive PyJson where
  | null
  | bool (b : Bool)
  | num (n : Int)
  | numLit (lit : String)
  | str (s : String)
  | arr (l : List PyJson)
  | obj (kvs : List (String × PyJson))
deriving Repr

def PyJson.isArr : PyJson → Bool
  | .arr _ => true
  | _ => false

/-- Opening and closing curly-brace characters. -/
def lbrace : Char := Char.ofNat 123

def rbrace : Char := Char.ofNat 125

/-- Skip JSON whitespace. -/
def skipWs : List Char → List Char
  | c :: rest =>
    if c = ' ' ∨ c = '\t' ∨ c = '\n' ∨ c = '\r' then skipWs rest else c :: rest
  | [] => []

/-- Accumulate a run of decimal digits. -/
def pDigits (acc : Nat) : List Char → Nat × List Char
  | [] => (acc, [])
  | c :: rest =>
    if c.isDigit then pDigits (acc * 10 + (c.toNat - 48)) rest else (acc, c :: rest)

/-- Consume the remaining characters of a non-integer numeric literal. -/
def pNumTail : List Char → List Char × List Char
  | [] => ([], [])
  | c :: rest =>
    if c.isDigit ∨ c = '.' ∨ c = 'e' ∨ c = 'E' ∨ c = '+' ∨ c = '-' then
      let (tail, r) := pNumTail rest
      (c :: tail, r)
    else ([], c :: rest)

/-- Hexadecimal digit test. -/
def isHexDigitC (c : Char) : Bool :=
  c.isDigit || ('a' ≤ c && c ≤ 'f') || ('A' ≤ c && c ≤ 'F')

/-- Value of a hexadecimal digit. -/
def hexVal (c : Char) : Nat :=
  if c.isDigit then c.toNat - 48
  else if 'a' ≤ c ∧ c ≤ 'f' then c.toNat - 87
  else c.toNat - 55

mutual

/-- Parse one JSON value.  Fuel decreases on every call; the top-level entry
point supplies enough fuel for any input it is applied to. -/
def pVal : Nat → List Char → Option (PyJson × List Char)
  | 0, _ => none
  | fuel + 1, cs =>
    match skipWs cs with
    | [] => none
    | c :: rest =>
      if c = '[' then
        match pArrLoop fuel rest [] with
        | some (l, r) => some (.arr l, r)
        | none => none
      else if c = lbrace then
        match pObjLoop fuel rest [] with
        | some (kvs, r) => some (.obj kvs, r)
        | none => none
      else if c = '"' then
        match pStr fuel rest [] with
        | some (s, r) => some (.str s, r)
        | none => none
      else if c = '-' then
        match rest with
        | d :: rest2 =>
          if d.isDigit then
            let (n, r) := pDigits 0 (d :: rest2)
            match r with
            | e :: _ =>
              if e = '.' ∨ e = 'e' ∨ e = 'E' then
                let (tail, r2) := pNumTail r
                some (.numLit (String.mk ('-' :: (Nat.toDigits 10 n) ++ tail)), r2)
              else some (.num (-(n : Int)), r)
            | [] => some (.num (-(n : Int)), r)
          else none
        | [] => none
      else if c.isDigit then
        let (n, r) := pDigits 0 (c :: rest)
        match r with
        | e :: _ =>
          if e = '.' ∨ e = 'e' ∨ e = 'E' then
            let (tail, r2) := pNumTail r
            some (.numLit (String.mk ((Nat.toDigits 10 n) ++ tail)), r2)
          else some (.num (n : Int), r)
        | [] => some (.num (n : Int), r)
      else if ("null".data).isPrefixOf (c :: rest) then some (.null, rest.drop 3)
      else if ("true".data).isPrefixOf (c :: rest) then some (.bool true, rest.drop 3)
      else if ("false".data).isPrefixOf (c :: rest) then some (.bool false, rest.drop 4)
      else none

/-- Parse the items of an array after the opening bracket; an immediate `]`
closes an empty array, and after a comma a further value is required. -/
def pArrLoop : Nat → List Char → List PyJson → Option (List PyJson × List Char)
  | 0, _, _ => none
  | fuel + 1, cs, acc =>
    match skipWs cs with
    | [] => none
    | c :: r =>
      if c = ']' ∧ acc.isEmpty then some (acc, r)
      else
        match pVal fuel (c :: r) with
        | none => none
        | some (v, rest) =>
          match skipWs rest with
          | ',' :: r2 => pArrLoopTail fuel r2 (acc ++ [v])
          | c2 :: r2 => if c2 = ']' then some (acc ++ [v], r2) else none
          | [] => none

/-- Continuation of `pArrLoop` after a comma (no closing bracket allowed
directly). -/
def pArrLoopTail : Nat → List Char → List PyJson → Option (List PyJson × List Char)
  | 0, _, _ => none
  | fuel + 1, cs, acc =>
    match pVal fuel cs with
    | none => none
    | some (v, rest) =>
      match skipWs rest with
      | ',' :: r2 => pArrLoopTail fuel r2 (acc ++ [v])
      | c2 :: r2 => if c2 = ']' then some (acc ++ [v], r2) else none
      | [] => none

/-- Parse the members of an object after the opening brace. -/
def pObjLoop : Nat → List Char → List (String × PyJson) →
    Option (List (String × PyJson) × List Char)
  | 0, _, _ => none
  | fuel + 1, cs, acc =>
    match skipWs cs with
    | [] => none
    | c :: r =>
      if c = rbrace ∧ acc.isEmpty then some (acc, r)
      else if c = '"' then
        match pStr fuel r [] with
        | none => none
        | some (k, rest) =>
          match skipWs rest with
          | ':' :: r2 =>
            match pVal fuel r2 with
            | none => none
            | some (v, rest2) =>
              match skipWs rest2 with
              | ',' :: r3 => pObjLoop fuel r3 (acc ++ [(k, v)])
              | c3 :: r3 => if c3 = rbrace then some (acc ++ [(k, v)], r3) else none
              | [] => none
          | _ => none
      else none

/-- Parse the body of a string literal after the opening quote. -/
def pStr : Nat → List Char → List Char → Option (String × List Char)
  | 0, _, _ => none
  | fuel + 1, cs, acc =>
    match cs with
    | [] => none
    | '"' :: rest => some (String.mk acc, rest)
    | '\\' :: e :: rest =>
      match e with
      | '"' => pStr fuel rest (acc ++ ['"'])
      | '\\' => pStr fuel rest (acc ++ ['\\'])
      | '/' => pStr fuel rest (acc ++ ['/'])
      | 'n' => pStr fuel rest (acc ++ ['\n'])
      | 't' => pStr fuel rest (acc ++ ['\t'])
      | 'r' => pStr fuel rest (acc ++ ['\r'])
      | 'b' => pStr fuel rest (acc ++ [Char.ofNat 8])
      | 'f' => pStr fuel rest (acc ++ [Char.ofNat 12])
      | 'u' =>
        match rest with
        | h1 :: h2 :: h3 :: h4 :: rest2 =>
          if isHexDigitC h1 ∧ isHexDigitC h2 ∧ isHexDigitC h3 ∧ isHexDigitC h4 then
            pStr fuel rest2
              (acc ++ [Char.ofNat (((hexVal h1 * 16 + hexVal h2) * 16 + hexVal h3) * 16 + hexVal h4)])
          else none
        | _ => none
      | _ => none
    | '\\' :: [] => none
    | c :: rest => pStr fuel rest (acc ++ [c])

end

/-- Modelled from the spec: Python's `json.loads` (standard library, outside
this repository), restricted to the JSON grammar; `none` models a
`JSONDecodeError`, raised in particular on trailing non-whitespace input. -/
def json_loads (s : String) : Option PyJson :=
  match pVal (2 * s.data.length + 2) s.data with
  | some (v, rest) => if (skipWs rest).isEmpty then some v else none
  | none => none

/-- Index of the first occurrence of a character. -/
def firstIdxOf (c : Char) : List Char → Option Nat
  | [] => none
  | x :: xs => if x = c then some 0 else (firstIdxOf c xs).map (· + 1)

/-- Index of the last occurrence of a character. -/
def lastIdxOf (c : Char) : List Char → Option Nat
  | [] => none
  | x :: xs =>
    match lastIdxOf c xs with
    | some i => some (i + 1)
    | none => if x = c then some 0 else none

/-- Index of the first occurrence of a character-list pattern, models
`str.find` returning a non-negative index. -/
def subIdx (pat : List Char) (cs : List Char) : Option Nat :=
  (List.range (cs.length + 1)).find? (fun i => pat.isPrefixOf (cs.drop i))

/-- The greedy-regex span `\x5b[\s\S]*\x5d`: from the first `[` to the last
`]` when the former precedes the latter, which is exactly when the regex of
performance_record.py line 65 has a match. -/
def greedyArraySpan (cs : List Char) : Option (List Char) :=
  match firstIdxOf '[' cs, lastIdxOf ']' cs with
  | some i, some j => if i < j then some ((cs.drop i).take (j - i + 1)) else none
  | _, _ => none

/-- The code-fence slice: the text starting 7 characters after the first
occurrence of the json code-fence marker, up to the next triple backtick,
stripped (performance_record.py lines 79-84); `none` when the closing fence
is missing (`end_idx == -1`). -/
def fenceSlice (cs : List Char) : Option String :=
  match subIdx ("```json".data) cs with
  | none => none
  | some k =>
    let start := k + 7
    match subIdx ("```".data) (cs.drop start) with
    | none => none
    | some m => some (trimStr (String.mk ((cs.drop start).take m)))

/-- The manual bracket-bounds fallback (performance_record.py lines 87-95):
identical bounds to the greedy regex, so it returns the empty list whenever
it is reached. -/
def bracketFallback (cs : List Char) : PyJson :=
  match greedyArraySpan cs with
  | some span =>
    (match json_loads (String.mk span) with
     | some v => v
     | none => .arr [])
  | none => .arr []

/-- Models `extract_json_from_response` (performance_record.py lines 56-103).
Every `json.loads` failure is caught by the surrounding `try` and yields the
empty list; note that the code-fence path returns whatever JSON value parses
there, list or not. -/
def extract_json_from_response (response_text : String) : PyJson :=
  let t := trimStr response_text
  let cs := t.data
  match greedyArraySpan cs with
  | some span =>
    (match json_loads (String.mk span) with
     | some v => v
     | none => .arr [])
  | none =>
    if startsWithStr t "[" && endsWithStr t "]" then
      match json_loads t with
      | some v => v
      | none => .arr []
    else if (subIdx ("```json".data) cs).isSome then
      match fenceSlice cs with
      | some body =>
        (match json_loads body with
         | some v => v
         | none => .arr [])
      | none => bracketFallback cs
    else bracketFallback cs

/-! ## Parallel coordinator (agents/parallel_coordinator.py lines 103-360)

The four generation coroutines and the four persistence coroutines are
external-call boundaries; their outcomes are parameters.  An
`asyncio.gather(..., return_exceptions=True)` captures each outcome
independently, so a run of the generation phase is one outcome per scheduled
sub-task name, and the result-processing loop folds over the scheduled names
zipped with those outcomes. -/

/-- Value returned by one generation sub-task, as seen by the coordinator's
dynamic-typing wrap `result if isinstance(result, list) else [result] if
result else []`. -/
inductive GenItem where
  | taskItem (t : TaskM)
  | contentItem (c : ContentM)
  | perfItem (p : PerfRecM)
  | summaryItem (m : MeetingSummaryM)
deriving DecidableEq, Repr

inductive GenResult where
  | listRes (l : List GenItem)
  | objRes (x : GenItem)
  | noneRes
deriving DecidableEq, Repr

/-- The wrap `result if isinstance(result, list) else [result] if result
else []`. -/
def listWrap : GenResult → List GenItem
  | .listRes l => l
  | .objRes x => [x]
  | .noneRes => []

/-- Python truthiness of a stored generation result (`None` when never
assigned). -/
def truthyGen : Option GenResult → Bool
  | none => false
  | some (.listRes l) => !l.isEmpty
  | some (.objRes _) => true
  | some .noneRes => false

inductive TaskName where
  | summary
  | performance
  | tasks
  | content
deriving DecidableEq, Repr

/-- The scheduled sub-task names, in scheduling order
(parallel_coordinator.py lines 130-158): Summary and Performance always,
Tasks iff `tasks_detected`, Content iff `content_detected` and a truthy
`content_details`. -/
def scheduledNames (tasks_detected content_detected content_details_truthy : Bool) :
    List TaskName :=
  [.summary, .performance] ++
    (if tasks_detected then [.tasks] else []) ++
    (if content_detected && content_details_truthy then [.content] else [])

structure CoordGenState where
  final_summary : Option GenResult := none
  final_performance_records : List GenItem := []
  final_tasks : List GenItem := []
  final_content : List GenItem := []
deriving DecidableEq, Repr

/-- Constant inputs of the result-processing loop. -/
structure CoordCtx where
  organization_id : String
  department_id : Option String
  attendees : List AttendeeM
  meeting_date : String
deriving DecidableEq, Repr

/-- Models `create_error_summary` (parallel_coordinator.py lines 349-360). -/
def create_error_summary (organization_id : String) (department_id : Option String)
    (attendees : List AttendeeM) (meeting_date : String) : MeetingSummaryM :=
  { organizationId := organization_id
    departmentId := department_id
    createdById := "ai"
    title := "Processing Error"
    summary := "An error occurred while processing the meeting summary."
    meetingDate := meeting_date
    attendees := attendees
    actionItems := [] }

/-- Models `validate_subtasks` (parallel_coordinator.py lines 83-101) on a
task: a task without subtasks is returned unchanged, otherwise subtasks with
a blank content or a stripped content of at most 5 characters are removed. -/
def validate_subtasks_task (t : TaskM) : TaskM :=
  if t.subtasks.isEmpty then t
  else
    { t with subtasks := t.subtasks.filter (fun st =>
        st.content != "" && trimStr st.content != "" && (trimStr st.content).data.length > 5) }

/-- `validate_subtasks` applied through the `hasattr` guard: items that are
not tasks have no `subtasks` attribute and are returned unchanged. -/
def validate_subtasks_item : GenItem → GenItem
  | .taskItem t => .taskItem (validate_subtasks_task t)
  | x => x

/-- Models one step of the result-processing loop (parallel_coordinator.py
lines 171-197): an exceptional outcome substitutes the stage default, a
normal outcome is stored with the list wrap, and only the branch of the
matched name writes. -/
def applyOne (ctx : CoordCtx) (s : CoordGenState) (name : TaskName)
    (res : Except String GenResult) : CoordGenState :=
  match res with
  | .error _ =>
    match name with
    | .summary =>
      { s with final_summary := some (.objRes (.summaryItem
          (create_error_summary ctx.organization_id ctx.department_id
            ctx.attendees ctx.meeting_date))) }
    | .performance => { s with final_performance_records := [] }
    | .tasks => { s with final_tasks := [] }
    | .content => { s with final_content := [] }
  | .ok r =>
    match name with
    | .summary => { s with final_summary := some r }
    | .performance => { s with final_performance_records := listWrap r }
    | .tasks => { s with final_tasks := (listWrap r).map validate_subtasks_item }
    | .content => { s with final_content := listWrap r }

/-- The result-processing loop over the zipped names and outcomes. -/
def processResults (ctx : CoordCtx) (s : CoordGenState) :
    List (TaskName × Except String GenResult) → CoordGenState
  | [] => s
  | (n, r) :: rest => processResults ctx (applyOne ctx s n r) rest

/-- Second-chance `"ai"` repair for a generated task
(parallel_coordinator.py lines 200-206). -/
def repair_task_ai (better : String) : GenItem → GenItem
  | .taskItem t =>
    if t.assignedToId == "ai" then .taskItem { t with assignedToId := better }
    else .taskItem t
  | x => x

/-- Second-chance `"ai"` repair for a generated content item
(parallel_coordinator.py lines 208-219). -/
def repair_content_ai (better : String) : GenItem → GenItem
  | .contentItem c =>
    let c := if c.createdForId == "ai" then { c with createdForId := better } else c
    let c := if c.recipientEmail == "ai" then { c with recipientEmail := better } else c
    .contentItem c
  | x => x

/-- Keys of the `initial_ids` dict; each field is `none` while the key is
unset. -/
structure InitialIds where
  summary_id : Option String := none
  summary_updated : Option Bool := none
  task_ids : Option (List String) := none
  content_ids : Option (List String) := none
  performance_record_ids : Option (List String) := none
deriving DecidableEq, Repr

/-- Outcomes of the four persistence calls; each call may fail
independently. -/
structure CreateOutcomes where
  update_summary : Except String Bool := .ok true
  create_performance : Except String (List String) := .ok []
  create_tasks : Except String (List String) := .ok []
  create_content : Except String (List String) := .ok []
deriving Repr

/-- Summary-update entry of the persistence phase
(parallel_coordinator.py lines 225-228 and 261-275): scheduled only when a
final summary is truthy and a summary id is stored. -/
def creationSummaryStep (g : CoordGenState) (iid : InitialIds) (o : CreateOutcomes) :
    InitialIds :=
  if truthyGen g.final_summary && truthyOptStr iid.summary_id then
    match o.update_summary with
    | .error _ => { iid with summary_updated := some false }
    | .ok b => { iid with summary_updated := some b }
  else iid

/-- Performance-records entry of the persistence phase. -/
def creationPerfStep (g : CoordGenState) (iid : InitialIds) (o : CreateOutcomes) :
    InitialIds :=
  if !g.final_performance_records.isEmpty then
    match o.create_performance with
    | .error _ => { iid with performance_record_ids := some [] }
    | .ok l => { iid with performance_record_ids := some l }
  else iid

/-- Task-creation entry of the persistence phase, guarded by
`tasks_detected`. -/
def creationTasksStep (tasks_detected : Bool) (g : CoordGenState) (iid : InitialIds)
    (o : CreateOutcomes) : InitialIds :=
  if !g.final_tasks.isEmpty && tasks_detected then
    match o.create_tasks with
    | .error _ => { iid with task_ids := some [] }
    | .ok l => { iid with task_ids := some l }
  else iid

/-- Content-creation entry of the persistence phase, guarded by
`content_detected`. -/
def creationContentStep (content_detected : Bool) (g : CoordGenState) (iid : InitialIds)
    (o : CreateOutcomes) : InitialIds :=
  if !g.final_content.isEmpty && content_detected then
    match o.create_content with
    | .error _ => { iid with content_ids := some [] }
    | .ok l => { iid with content_ids := some l }
  else iid

/-- Models the persistence phase (parallel_coordinator.py lines 221-284).
The source gathers the scheduled creation coroutines and processes each
result in a branch keyed by a distinct creation name writing a distinct
`initial_ids` key, so the loop equals this sequential composition of the
four conditional updates, in scheduling order. -/
def creationPhase (tasks_detected content_detected : Bool) (g : CoordGenState)
    (iid : InitialIds) (o : CreateOutcomes) : InitialIds :=
  creationContentStep content_detected g
    (creationTasksStep tasks_detected g
      (creationPerfStep g
        (creationSummaryStep g iid o) o) o) o

/-- The terminal report object built by the storage/response stage. -/
structure FinalResponse where
  success : Bool
  message : String
  status : String
  summary_id : String
  task_ids : List String
  content_ids : List String
  failed_operations : List String
  ops_summary : String
  ops_tasks : String
  ops_content : String
deriving DecidableEq, Repr

/-- The slice of the pipeline state threaded through the stages that the
modelled nodes read and write.  `content_details_truthy` is the truthiness
of the `content_details` dict. -/
structure PState where
  meetingId : String := ""
  organizationId : String := ""
  departmentId : Option String := none
  transcription : String := ""
  attendees : List AttendeeM := []
  participants : List PyEntry := []
  generate_summary : Bool := true
  tasks_detected : Bool := false
  content_detected : Bool := false
  content_details_truthy : Bool := false
  meeting_date : String := ""
  initial_ids : InitialIds := {}
  meetingSummary : Option GenResult := none
  tasks : List GenItem := []
  generatedContent : List GenItem := []
  performanceRecords : List GenItem := []
  messages : List String := []
  status : String := "pending"
  final_response : Option FinalResponse := none
deriving Repr

/-- Subtask count used by the statistics message; a non-task item would make
the source raise, so it contributes nothing here. -/
def subtaskCount : GenItem → Nat
  | .taskItem t => t.subtasks.length
  | _ => 0

/-- The statistics fragments appended to the coordinator's completion
message (parallel_coordinator.py lines 299-311). -/
def statsParts (g : CoordGenState) : List String :=
  (if truthyGen g.final_summary then ["summary generated"] else []) ++
  (if !g.final_tasks.isEmpty then
     [toString g.final_tasks.length ++ " tasks with " ++
       toString (g.final_tasks.map subtaskCount).sum ++ " subtasks"]
   else []) ++
  (if !g.final_content.isEmpty then
     [toString g.final_content.length ++ " content items"] else []) ++
  (if !g.final_performance_records.isEmpty then
     [toString g.final_performance_records.length ++ " performance records"] else [])

/-- The constant loop inputs extracted from the state. -/
def coordCtxOf (st : PState) : CoordCtx :=
  { organization_id := st.organizationId, department_id := st.departmentId,
    attendees := st.attendees, meeting_date := st.meeting_date }

/-- The scheduled sub-task names for a state. -/
def coordNames (st : PState) : List TaskName :=
  scheduledNames st.tasks_detected st.content_detected st.content_details_truthy

/-- The generation phase of the coordinator: one independent outcome per
scheduled sub-task, folded by the result-processing loop. -/
def coordGen (gen : TaskName → Except String GenResult) (st : PState) : CoordGenState :=
  processResults (coordCtxOf st) {} ((coordNames st).map (fun n => (n, gen n)))

/-- The generation results after the second-chance sentinel repairs
(parallel_coordinator.py lines 199-219). -/
def coordRepaired (gen : TaskName → Except String GenResult) (st : PState) :
    CoordGenState :=
  let g1 := coordGen gen st
  let better := get_default_participant_id st.participants
  { g1 with
    final_tasks := g1.final_tasks.map (repair_task_ai better)
    final_content := g1.final_content.map (repair_content_ai better) }

/-- Models `parallel_coordinator_node` (parallel_coordinator.py
lines 103-321), non-exceptional path: schedule, process the gathered
outcomes, repair sentinel ids, persist, merge.  `gen` assigns each scheduled
sub-task its independent outcome; `cr` the persistence outcomes. -/
def parallel_coordinator_node (gen : TaskName → Except String GenResult)
    (cr : CreateOutcomes) (st : PState) : PState :=
  let g2 := coordRepaired gen st
  let iid := creationPhase st.tasks_detected st.content_detected g2 st.initial_ids cr
  let parts := statsParts g2
  let msg := "Enhanced parallel processing with all nodes completed" ++
    (if parts.isEmpty then "" else " (" ++ joinSep ", " parts ++ ")")
  { st with
    initial_ids := iid
    meetingSummary := if truthyGen g2.final_summary then g2.final_summary else none
    tasks := g2.final_tasks
    generatedContent := g2.final_content
    performanceRecords := g2.final_performance_records
    messages := st.messages ++ [msg]
    status := "pending" }

/-- Field-wise agreement of two generation-phase states away from one
sub-task name; used to state that sibling outcomes are independent. -/
def offEq (excluded : TaskName) (a b : CoordGenState) : Prop :=
  (excluded ≠ .summary → a.final_summary = b.final_summary) ∧
  (excluded ≠ .performance → a.final_performance_records = b.final_performance_records) ∧
  (excluded ≠ .tasks → a.final_tasks = b.final_tasks) ∧
  (excluded ≠ .content → a.final_content = b.final_content)

/-! ## Surrounding pipeline nodes -/

/-- Models the placeholder-summary part of `analysis_node` (analysis.py
lines 125-168) together with the flag merge: the analysis output flags are
written to the state; when a summary is to be generated the result of
`create_meeting_summary` is stored under `initial_ids.summary_id` — including
an empty id — while an exception from that call is caught and leaves the key
unset. -/
def analysis_dummy_phase (genSummaryFlag tasksDetected contentDetected
    contentDetailsTruthy : Bool) (createRes : Except String String)
    (st : PState) : PState :=
  let st1 := { st with
    generate_summary := genSummaryFlag
    tasks_detected := tasksDetected
    content_detected := contentDetected
    content_details_truthy := contentDetailsTruthy
    messages := st.messages ++ ["Enhanced analysis completed"]
    status := "pending" }
  if genSummaryFlag then
    match createRes with
    | .error _ => st1
    | .ok dummy_id =>
      { st1 with initial_ids := { st1.initial_ids with summary_id := some dummy_id } }
  else st1

/-- Models `summary_generation_node` (summary_generation.py lines 475-542):
a falsy `initial_ids.summary_id` raises `ValueError`, which the outer
handler re-raises, modelled by `Except.error`; otherwise the final summary
is generated (`final_summary` parameter), the placeholder is updated
(`upd` parameter; an exception from the update call is also re-raised) and
the node returns with status pending whether or not the update reported
success. -/
def summary_generation_node (final_summary : MeetingSummaryM)
    (upd : Except String Bool) (st : PState) : Except String PState :=
  let summary_id := st.initial_ids.summary_id.getD ""
  if summary_id == "" then .error "Missing summary_id for updating dummy summary"
  else
    match upd with
    | .error e => .error e
    | .ok ok =>
      .ok { st with
        messages := st.messages ++
          [if ok then "Summary generated and updated successfully (ID: " ++ summary_id ++ ")"
           else "Summary generated but update to " ++ summary_id ++ " failed"]
        meetingSummary := some (.objRes (.summaryItem final_summary))
        status := "pending" }

/-- Models `performance_records_node` (performance_record.py lines 329-398):
missing required data raises `ValueError`, caught by the node's own handler
which returns a failure state; with no generated records the node records an
empty id list; an exception from the bulk create is likewise caught into a
failure state. -/
def performance_records_node (genRecords : List PerfRecM)
    (bulk : Except String (List String)) (st : PState) : PState :=
  if !(st.transcription != "" && !st.participants.isEmpty &&
       st.organizationId != "" && st.meetingId != "") then
    { st with
      status := "failure"
      messages := st.messages ++
        ["Performance records failed: Missing required data: transcription, participants, organization_id, or meeting_id"] }
  else if genRecords.isEmpty then
    { st with
      initial_ids := { st.initial_ids with performance_record_ids := some [] }
      messages := st.messages ++ ["No performance records generated"]
      status := "pending" }
  else
    match bulk with
    | .error e =>
      { st with
        status := "failure"
        messages := st.messages ++ ["Performance records failed: " ++ e] }
    | .ok ids =>
      { st with
        initial_ids := { st.initial_ids with performance_record_ids := some ids }
        messages := st.messages ++
          ["Performance records created: " ++ toString ids.length ++ " records"]
        status := "pending" }

/-- Models `storage_response_node` (storage_response.py lines 9-91),
non-exceptional path: the final report is computed from `initial_ids` and
the detection flags alone. -/
def storage_response_node (st : PState) : PState :=
  let summary_id := st.initial_ids.summary_id.getD ""
  let task_ids := st.initial_ids.task_ids.getD []
  let content_ids := st.initial_ids.content_ids.getD []
  let failed_operations :=
    (if summary_id == "" then ["meeting summary"] else []) ++
    (if st.tasks_detected && task_ids.isEmpty then ["tasks"] else []) ++
    (if st.content_detected && content_ids.isEmpty then ["generated content"] else [])
  let success := failed_operations.isEmpty
  let message :=
    if success then
      "Pipeline completed successfully - all operations succeeded" ++
        (if summary_id != "" then ". Summary updated with ID: " ++ summary_id else "") ++
        (if !task_ids.isEmpty then ". " ++ toString task_ids.length ++ " tasks created" else "") ++
        (if !content_ids.isEmpty then
          ". " ++ toString content_ids.length ++ " content items created" else "")
    else
      match failed_operations with
      | [op] => "Pipeline partially completed - failed to process " ++ op
      | ops => "Pipeline partially completed - failed to process: " ++
          joinSep ", " ops
  let response : FinalResponse :=
    { success := success
      message := message
      status := if success then "success" else "partial_failure"
      summary_id := summary_id
      task_ids := task_ids
      content_ids := content_ids
      failed_operations := failed_operations
      ops_summary := if summary_id != "" then "updated" else "failed"
      ops_tasks :=
        if !task_ids.isEmpty then "created"
        else if !st.tasks_detected then "not_needed" else "failed"
      ops_content :=
        if !content_ids.isEmpty then "created"
        else if !st.content_detected then "not_needed" else "failed" }
  { st with
    messages := st.messages ++ [message]
    final_response := some response
    status := response.status }

/-- The pipeline tail driven by the workflow graph of main.py (analysis →
parallel_coordinator → summary_generation → performance_records →
storage_response); an exception raised by a node aborts the workflow, so the
run result is an `Except`. -/
def pipeline_from_analysis (genSummaryFlag tasksDetected contentDetected
    contentDetailsTruthy : Bool) (createRes : Except String String)
    (gen : TaskName → Except String GenResult) (cr : CreateOutcomes)
    (final_summary : MeetingSummaryM) (upd : Except String Bool)
    (genRecords : List PerfRecM) (bulk : Except String (List String))
    (st : PState) : Except String PState :=
  let st1 := analysis_dummy_phase genSummaryFlag tasksDetected contentDetected
    contentDetailsTruthy createRes st
  let st2 := parallel_coordinator_node gen cr st1
  match summary_generation_node final_summary upd st2 with
  | .error e => .error e
  | .ok st3 =>
    let st4 := performance_records_node genRecords bulk st3
    .ok (storage_response_node st4)

/-! ## Concrete fixtures used by witnesses and counterexamples -/

/-- String of `n` words. -/
def wordsStr (n : Nat) : String := joinSep " " (List.replicate n "word")

/-- Concrete summary record with the given summary text. -/
def sampleSummary (s : String) : MeetingSummaryM :=
  { organizationId := "orgX", departmentId := none, createdById := "ai",
    title := "Quarterly Planning", summary := s, meetingDate := "2025-01-01",
    attendees := [], actionItems := [] }

/-- Participant `u1` named Bob B. -/
def pBobB : Participant := { id := some "u1", firstName := some "Bob", lastName := some "B" }

/-- One-participant roster. -/
def psBobB : List PyEntry := [.dict pBobB]

/-- Pipeline state just after transcription: inputs present, no ids yet. -/
def stPre : PState :=
  { meetingId := "m1", organizationId := "o1", transcription := "call notes",
    participants := psBobB, meeting_date := "2025-01-01" }

/-- Pipeline state whose stored summary id is the empty string (a failed
placeholder creation). -/
def stEmptyId : PState :=
  { meetingId := "m1", organizationId := "o1", transcription := "call notes",
    participants := psBobB, initial_ids := { summary_id := some "" } }

/-- Pipeline state on which the performance-records stage fails (missing
transcription) while a summary id exists and no tasks or content were
detected. -/
def stFail : PState :=
  { meetingId := "m1", organizationId := "o1", transcription := "",
    participants := psBobB, initial_ids := { summary_id := some "s1" } }

/-! # Theorems -/

/-! ## C1: identity resolver -/

/-- C1, counterexample.  The claim states that a call with an empty name
goes straight to the step-4 fallback (first participant whose id or email is
not the sentinel).  The parallel_coordinator.py variant instead returns the
sentinel `"ai"` directly, here differing from the fallback identifier
`"u1"`. -/
theorem c1_counterexample :
    smart_match_participant_id_pc "" [.dict { id := some "u1" }] = "ai" ∧
    get_default_participant_id [.dict { id := some "u1" }] = "u1" ∧
    smart_match_participant_id_pc "" [.dict { id := some "u1" }] ≠
      get_default_participant_id [.dict { id := some "u1" }] :=
  ⟨rfl, rfl, by decide⟩

/-- C1, amended.  For every name and participant list: (1) when the name and
list are non-empty and some participant wins the exact pass, both resolver
variants return that participant's id (falling back to its email, with the
variant's respective final default); (2) when no exact, first/last-name or
containment step matches, both variants return the step-4 fallback
identifier, which depends on the participants only — never on the literal
input name; (3) with an empty name or empty participant list the
task_identification.py variant goes straight to the step-4 fallback, while
the parallel_coordinator.py variant returns the sentinel `"ai"` directly. -/
theorem c1_identity_resolver (name : String) (ps : List PyEntry) :
    (∀ p, name ≠ "" → ps ≠ [] →
      findDict (exactNameHit (lowerStrip name)) ps = some p →
      smart_match_participant_id_pc name ps = idOrEmail "ai" p ∧
      smart_match_participant_id_ti name ps = idOrEmail "" p) ∧
    (name ≠ "" → ps ≠ [] →
      findDict (exactNameHit (lowerStrip name)) ps = none →
      findDict (looseNameHit (lowerStrip name)) ps = none →
      smart_match_participant_id_pc name ps = get_default_participant_id ps ∧
      smart_match_participant_id_ti name ps = get_default_participant_id ps) ∧
    ((name = "" ∨ ps = []) →
      smart_match_participant_id_pc name ps = "ai" ∧
      smart_match_participant_id_ti name ps = get_default_participant_id ps) := by
  have hmain : ∀ (hn : name ≠ "") (hp : ps ≠ []),
      (name == "" || ps.isEmpty) = false := by
    intro hn hp
    simp [hn, List.isEmpty_iff, hp]
  refine ⟨?_, ?_, ?_⟩
  · intro p hn hp hfind
    constructor
    · simp only [smart_match_participant_id_pc, hmain hn hp, Bool.false_eq_true,
        if_false, hfind]
    · simp only [smart_match_participant_id_ti, hmain hn hp, Bool.false_eq_true,
        if_false, hfind]
  · intro hn hp hexact hloose
    constructor
    · simp only [smart_match_participant_id_pc, hmain hn hp, Bool.false_eq_true,
        if_false, hexact, hloose]
    · simp only [smart_match_participant_id_ti, hmain hn hp, Bool.false_eq_true,
        if_false, hexact, hloose]
  · intro h
    have hcond : (name == "" || ps.isEmpty) = true := by
      rcases h with h | h <;> simp [h]
    constructor
    · simp only [smart_match_participant_id_pc, hcond, if_true]
    · simp only [smart_match_participant_id_ti, hcond, if_true]

/-- C1, witness: a concrete exact full-name match resolves to the matched
participant's id under both variants. -/
theorem c1_identity_resolver_witness :
    smart_match_participant_id_pc "Bob Smith"
      [.dict { id := some "u1", firstName := some "Bob", lastName := some "Smith" }] = "u1" ∧
    smart_match_participant_id_ti "Bob Smith"
      [.dict { id := some "u1", firstName := some "Bob", lastName := some "Smith" }] = "u1" := by
  have h := (c1_identity_resolver "Bob Smith"
      [.dict { id := some "u1", firstName := some "Bob", lastName := some "Smith" }]).1
    { id := some "u1", firstName := some "Bob", lastName := some "Smith" }
    (by decide) (by decide) (by decide)
  exact h

/-! ## C8: summary refinement word-count gate -/

/-- C8: in a refinement iteration, a successfully parsed refined summary
replaces the current summary text exactly when its word count lies in the
100-200 band, and otherwise the previous version is retained; in particular
a 250-word refined summary is rejected and a 150-word one is accepted. -/
theorem c8_word_count_gate (summary_data refined : MeetingSummaryM)
    (org : String) (dept : Option String) (md : String) (att : List AttendeeM) :
    ((refine_accept summary_data refined org dept md att).summary =
      if 100 ≤ word_count refined.summary ∧ word_count refined.summary ≤ 200 then
        refined.summary
      else summary_data.summary) ∧
    (refine_accept (sampleSummary "old text") (sampleSummary (wordsStr 250))
        "orgX" none "2025-01-01" []).summary = "old text" ∧
    (refine_accept (sampleSummary "old text") (sampleSummary (wordsStr 150))
        "orgX" none "2025-01-01" []).summary = wordsStr 150 := by
  refine ⟨?_, by decide, by decide⟩
  simp only [refine_accept]
  split <;> rfl

/-! ## C9: professional-task filter -/

/-- A successful subtask comprehension lists exactly the dict contents. -/
theorem subtaskTexts_eq_claim (l : List SubEntry) (subs : List String)
    (h : subtaskTexts l = some subs) : claimSubTexts l = subs := by
  induction l generalizing subs with
  | nil => simpa [subtaskTexts, claimSubTexts] using h.symm
  | cons e rest ih =>
    cases e with
    | str s => simp [subtaskTexts] at h
    | dict c =>
      rw [subtaskTexts] at h
      cases htail : subtaskTexts rest with
      | none => rw [htail] at h; simp at h
      | some tail =>
        rw [htail] at h
        simp only [Option.map_some', Option.some.injEq] at h
        subst h
        simp [claimSubTexts, ih tail htail]

/-- A raw task meeting the claim's drop condition is never professional. -/
theorem is_professional_of_dropCond (td : TaskData)
    (h : unprofessional_keywords.any (mentionsKw td) = true ∨
         work_related_keywords.all (fun kw => !(mentionsKw td kw)) = true) :
    is_professional_task td = none ∨ is_professional_task td = some false := by
  cases hsub : subtaskTexts (td.subtasks.getD []) with
  | none => exact Or.inl (by simp [is_professional_task, hsub])
  | some subs =>
    right
    have hclaim := subtaskTexts_eq_claim _ _ hsub
    have hmention : ∀ kw, mentionsKw td kw =
        (strIn kw (toLowerStr (td.title.getD "")) ||
         strIn kw (toLowerStr (td.description.getD "")) ||
         subs.any (fun s => strIn kw s)) := by
      intro kw
      simp [mentionsKw, hclaim]
    rcases h with h | h
    · have : unprofessional_keywords.any (fun kw =>
          strIn kw (toLowerStr (td.title.getD "")) ||
          strIn kw (toLowerStr (td.description.getD "")) ||
          subs.any (fun s => strIn kw s)) = true := by
        rw [List.any_eq_true] at h ⊢
        obtain ⟨kw, hkw, hval⟩ := h
        exact ⟨kw, hkw, by rw [← hmention kw]; exact hval⟩
      simp [is_professional_task, hsub, this]
    · have hwork : work_related_keywords.any (fun kw =>
          strIn kw (toLowerStr (td.title.getD "")) ||
          strIn kw (toLowerStr (td.description.getD "")) ||
          subs.any (fun s => strIn kw s)) = false := by
        rw [List.any_eq_false]
        intro kw hkw
        rw [List.all_eq_true] at h
        have h2 := h kw hkw
        rw [Bool.not_eq_true'] at h2
        rw [← hmention kw]
        simp [h2]
      cases hu : unprofessional_keywords.any (fun kw =>
          strIn kw (toLowerStr (td.title.getD "")) ||
          strIn kw (toLowerStr (td.description.getD "")) ||
          subs.any (fun s => strIn kw s)) with
      | true => simp [is_professional_task, hsub, hu]
      | false => simp [is_professional_task, hsub, hu, hwork]

/-- C9: a raw task whose title, description or subtask text contains an
unprofessional keyword, or that contains no work-related keyword at all,
contributes nothing to the returned task list — it is silently omitted. -/
theorem c9_professional_task_filter (l₁ l₂ : List TaskData) (td : TaskData)
    (ps : List PyEntry) (org : String) (dept : Option String)
    (h : unprofessional_keywords.any (mentionsKw td) = true ∨
         work_related_keywords.all (fun kw => !(mentionsKw td kw)) = true) :
    convertTasks ps org dept (l₁ ++ td :: l₂) = convertTasks ps org dept (l₁ ++ l₂) := by
  have hnone : processTaskData ps org dept (get_default_participant_id ps) td = none := by
    rcases is_professional_of_dropCond td h with h' | h' <;>
      simp [processTaskData, h']
  simp [convertTasks, List.filterMap_append, List.filterMap_cons, hnone]

/-- C9, witness: a concrete task mentioning a team lunch is dropped. -/
theorem c9_professional_task_filter_witness :
    convertTasks [.dict { id := some "u1" }] "org" none
      [{ title := some "Organize team lunch", description := some "book a venue" }] =
      convertTasks [.dict { id := some "u1" }] "org" none [] := by
  have h := c9_professional_task_filter [] []
    { title := some "Organize team lunch", description := some "book a venue" }
    [.dict { id := some "u1" }] "org" none (Or.inl (by decide))
  exact h

/-! ## C7: performance-record filtering -/

/-- C7, counterexample.  The claim requires that a record whose `userName`
resolves to no participant is dropped.  Instead the resolver falls back to a
default id: with one participant `u1`, the unresolvable name `"Zzz"` (no
exact, partial or containment hit) yields a persisted record with the
defaulted `userId := "u1"`; with an empty participant list it is persisted
with the hard-coded admin id. -/
theorem c7_counterexample :
    exactNameHitPR (lowerStrip "Zzz") pBobB = false ∧
    looseNameHitPR (lowerStrip "Zzz") pBobB = false ∧
    mapPerfRecords psBobB "org" "m" [.dict { userName := some "Zzz" }] =
      [{ organizationId := "org", userId := "u1", meetingId := "m",
         scoreType := "meeting_performance", points := 0, comment := "" }] ∧
    mapPerfRecords [] "org" "m" [.dict { userName := some "Zzz" }] =
      [{ organizationId := "org", userId := "user_329HS70oiTIrXPaoVmDkYwHgMp7",
         meetingId := "m", scoreType := "meeting_performance", points := 0,
         comment := "" }] := by
  refine ⟨by decide, by decide, by decide, by decide⟩

/-- C7, amended.  Every returned performance record carries a non-empty
`userId` different from the sentinel `"ai"`, produced by the resolver from
the record's stripped `userName`; non-dict elements and records with a blank
`userName` are dropped from the returned list.  A `userName` that matches no
participant is not dropped, however: it receives the resolver's default
participant id (see the counterexample). -/
theorem c7_performance_record_filtering (records l₁ l₂ : List RecEntry)
    (r : PerfRecData) (ps : List PyEntry) (org mid : String) :
    (∀ rec ∈ mapPerfRecords ps org mid records,
      rec.userId ≠ "" ∧ rec.userId ≠ "ai" ∧
      ∃ rd : PerfRecData, RecEntry.dict rd ∈ records ∧
        rec.userId = smart_match_participant_id_pr (trimStr (rd.userName.getD "")) ps) ∧
    (mapPerfRecords ps org mid (l₁ ++ .nondict :: l₂) =
      mapPerfRecords ps org mid (l₁ ++ l₂)) ∧
    (trimStr (r.userName.getD "") = "" →
      mapPerfRecords ps org mid (l₁ ++ .dict r :: l₂) =
        mapPerfRecords ps org mid (l₁ ++ l₂)) := by
  refine ⟨?_, ?_, ?_⟩
  · intro rec hrec
    rw [mapPerfRecords, List.mem_filterMap] at hrec
    obtain ⟨entry, hentry, hproc⟩ := hrec
    cases entry with
    | nondict => simp [processPerfRecord] at hproc
    | dict rd =>
      rw [processPerfRecord] at hproc
      by_cases h1 : trimStr (rd.userName.getD "") == ""
      · rw [if_pos h1] at hproc
        exact absurd hproc (by simp)
      · rw [if_neg h1] at hproc
        by_cases h2 : (smart_match_participant_id_pr (trimStr (rd.userName.getD "")) ps == ""
            || smart_match_participant_id_pr (trimStr (rd.userName.getD "")) ps == "ai")
        · rw [if_pos h2] at hproc
          exact absurd hproc (by simp)
        · rw [if_neg h2] at hproc
          rw [Bool.or_eq_true, not_or] at h2
          obtain ⟨h2a, h2b⟩ := h2
          have hrec' := hproc.symm
          have huid : rec.userId =
              smart_match_participant_id_pr (trimStr (rd.userName.getD "")) ps := by
            rw [← Option.some.injEq] at hrec'
            cases hrec'
            rfl
          refine ⟨?_, ?_, rd, hentry, huid⟩
          · rw [huid]; simpa using h2a
          · rw [huid]; simpa using h2b
  · simp [mapPerfRecords, List.filterMap_append, List.filterMap_cons, processPerfRecord]
  · intro hblank
    have hnone : processPerfRecord ps org mid (.dict r) = none := by
      simp [processPerfRecord, hblank]
    simp [mapPerfRecords, List.filterMap_append, List.filterMap_cons, hnone]

/-- C7, witness: a resolvable record is kept with the resolved id, a
whitespace-only userName is dropped. -/
theorem c7_performance_record_filtering_witness :
    (∀ rec ∈ mapPerfRecords psBobB "org" "m" [.dict { userName := some "Bob B" }],
      rec.userId ≠ "" ∧ rec.userId ≠ "ai" ∧
      ∃ rd : PerfRecData, RecEntry.dict rd ∈ [RecEntry.dict { userName := some "Bob B" }] ∧
        rec.userId = smart_match_participant_id_pr (trimStr (rd.userName.getD "")) psBobB) ∧
    mapPerfRecords psBobB "org" "m" ([] ++ .dict { userName := some "   " } :: []) =
      mapPerfRecords psBobB "org" "m" ([] ++ []) := by
  have h := c7_performance_record_filtering
    [.dict { userName := some "Bob B" }] [] [] { userName := some "   " } psBobB "org" "m"
  exact ⟨h.1, h.2.2 (by decide)⟩

/-! ## C6: content recipient invariant -/

/-- An email produced by the exact pass passed its admissibility check. -/
theorem exactTryEmail_ok {hit : Bool} {acc : List String} {ce : Option String}
    {p : Participant} {e : String} (h : exactTryEmail hit acc ce p = some e) :
    emailOK acc ce e = true := by
  rw [exactTryEmail] at h
  split at h
  · split at h
    · cases h; assumption
    · cases h
  · cases h

/-- A member of a candidate branch passed its admissibility check. -/
theorem candEmailIf_ok {hit : Bool} {ce : Option String} {p : Participant}
    {e : String} (h : e ∈ candEmailIf hit ce p) : ceOK ce e = true := by
  rw [candEmailIf] at h
  split at h
  · split at h
    · rcases List.mem_singleton.mp h with rfl
      assumption
    · cases h
  · cases h

/-- An email produced by the exact scan passed its admissibility check. -/
theorem exactEmailScan_ok {nl : String} {acc : List String} {ce : Option String}
    {e : String} : ∀ {ps : List PyEntry},
    exactEmailScan nl acc ce ps = some e → emailOK acc ce e = true := by
  intro ps
  induction ps with
  | nil => intro h; cases h
  | cons entry rest ih =>
    intro h
    cases entry with
    | nondict => exact ih h
    | dict p =>
      rw [exactEmailScan] at h
      cases h1 : exactTryEmail (fullNameCond nl p) acc ce p with
      | some e1 =>
        rw [h1] at h
        cases h
        exact exactTryEmail_ok h1
      | none =>
        rw [h1] at h
        cases h2 : exactTryEmail (nameFieldCond nl p) acc ce p with
        | some e2 =>
          rw [h2] at h
          cases h
          exact exactTryEmail_ok h2
        | none =>
          rw [h2] at h
          exact ih h

/-- Every candidate of the partial pass passed its creator/sentinel check. -/
theorem partialEmailCandidates_ok {nl : String} {ce : Option String} {e : String} :
    ∀ {ps : List PyEntry}, e ∈ partialEmailCandidates nl ce ps → ceOK ce e = true := by
  intro ps
  induction ps with
  | nil => intro h; cases h
  | cons entry rest ih =>
    intro h
    cases entry with
    | nondict => exact ih h
    | dict p =>
      rw [partialEmailCandidates] at h
      rcases List.mem_append.mp h with h' | h'
      on_goal 2 => exact ih h'
      rcases List.mem_append.mp h' with h'' | h'' <;> exact candEmailIf_ok h''

/-- The per-name step appends at most one email that is admissible and not
yet collected, so it preserves distinctness and creator exclusion. -/
theorem processRecipientName_inv (ps : List PyEntry) (ce : Option String)
    (acc : List String) (name : String) :
    (acc.Nodup → (processRecipientName ps ce acc name).Nodup) ∧
    (∀ c, ce = some c → c ∉ acc → c ∉ processRecipientName ps ce acc name) := by
  simp only [processRecipientName]
  split
  · exact ⟨fun h => h, fun c _ hc => hc⟩
  · cases hscan : exactEmailScan (lowerStrip name) acc ce ps with
    | some e =>
      dsimp only
      have hok := exactEmailScan_ok hscan
      rw [emailOK] at hok
      simp only [Bool.and_eq_true, Bool.not_eq_true'] at hok
      constructor
      · intro hnodup
        have hnotmem : e ∉ acc := by simpa using hok.1.1.2
        simp [List.nodup_append, hnodup, hnotmem]
      · intro c hce hc
        rw [hce] at hok
        have hne : e ≠ c := by simpa [neOpt] using hok.2
        simp only [List.mem_append, List.mem_singleton]
        rintro (h | rfl)
        · exact hc h
        · exact hne rfl
    | none =>
      dsimp only
      cases hcand : partialEmailCandidates (lowerStrip name) ce ps with
      | nil => exact ⟨fun h => h, fun c _ hc => hc⟩
      | cons e rest =>
        dsimp only
        have hok : ceOK ce e = true :=
          partialEmailCandidates_ok (by rw [hcand]; exact List.mem_cons_self e rest)
        rw [ceOK] at hok
        simp only [Bool.and_eq_true] at hok
        split
        · exact ⟨fun h => h, fun c _ hc => hc⟩
        · constructor
          · intro hnodup
            have hnotmem : e ∉ acc := by
              rename_i hcont
              simpa using hcont
            simp [List.nodup_append, hnodup, hnotmem]
          · intro c hce hc
            rw [hce] at hok
            have hne : e ≠ c := by simpa [neOpt] using hok.2
            simp only [List.mem_append, List.mem_singleton]
            rintro (h | rfl)
            · exact hc h
            · exact hne rfl

/-- Folding the per-name step preserves distinctness and creator
exclusion. -/
theorem foldl_processRecipientName_inv (ps : List PyEntry) (ce : Option String) :
    ∀ (names : List String) (acc : List String),
    (acc.Nodup → (names.foldl (processRecipientName ps ce) acc).Nodup) ∧
    (∀ c, ce = some c → c ∉ acc → c ∉ names.foldl (processRecipientName ps ce) acc) := by
  intro names
  induction names with
  | nil => exact fun acc => ⟨fun h => h, fun c _ hc => hc⟩
  | cons name rest ih =>
    intro acc
    constructor
    · intro hnodup
      exact (ih _).1 ((processRecipientName_inv ps ce acc name).1 hnodup)
    · intro c hce hc
      exact (ih _).2 c hce ((processRecipientName_inv ps ce acc name).2 c hce hc)

/-- C6, counterexample.  The claim states the creator identity is never in
the recipient set.  The creator lookup is keyed on the participant `id`
only; a creator that was resolved through its email (because its record has
no `id` key) is not excluded, so the produced content item has its
`createdForId` equal to its whole recipient email. -/
theorem c6_counterexample :
    (processContentItem "org" none none none
      [.dict { email := some "bob@x.com", firstName := some "Bob", lastName := some "B" },
       .dict { id := some "u2", email := some "carol@x.com", firstName := some "Carol",
               lastName := some "C" }]
      (get_default_participant_id
        [.dict { email := some "bob@x.com", firstName := some "Bob", lastName := some "B" },
         .dict { id := some "u2", email := some "carol@x.com", firstName := some "Carol",
                 lastName := some "C" }])
      { createdForName := some "Bob B", recipientNames := some (.list ["Bob B"]),
        content := some (.str "hi") }).createdForId = "bob@x.com" ∧
    (processContentItem "org" none none none
      [.dict { email := some "bob@x.com", firstName := some "Bob", lastName := some "B" },
       .dict { id := some "u2", email := some "carol@x.com", firstName := some "Carol",
               lastName := some "C" }]
      (get_default_participant_id
        [.dict { email := some "bob@x.com", firstName := some "Bob", lastName := some "B" },
         .dict { id := some "u2", email := some "carol@x.com", firstName := some "Carol",
                 lastName := some "C" }])
      { createdForName := some "Bob B", recipientNames := some (.list ["Bob B"]),
        content := some (.str "hi") }).recipientEmail = "bob@x.com" :=
  ⟨by decide, by decide⟩

/-- C6, amended.  The resolved recipient email list never contains
duplicates; when the creator is found by its `id` (the lookup the code
performs), the creator's email never appears among the resolved recipients;
and when zero names resolve, the result falls back to the first
non-excluded, non-sentinel participant's email.  When no participant's `id`
equals the exclusion id — for instance a creator resolved via its email —
the creator's identity can appear in the recipient set (see the
counterexample). -/
theorem c6_recipient_invariant (names : List String) (ps : List PyEntry)
    (excludeId : String) :
    (matchedEmails names ps excludeId).Nodup ∧
    (∀ c, creatorEmailOf ps excludeId = some c → c ∉ matchedEmails names ps excludeId) ∧
    (matchedEmails names ps excludeId = [] →
      smart_match_participant_emails names ps excludeId =
        get_default_participant_email ps excludeId) := by
  refine ⟨?_, ?_, ?_⟩
  · exact (foldl_processRecipientName_inv ps (creatorEmailOf ps excludeId) names []).1
      List.nodup_nil
  · intro c hce
    exact (foldl_processRecipientName_inv ps (creatorEmailOf ps excludeId) names []).2
      c hce (List.not_mem_nil c)
  · intro hempty
    rw [smart_match_participant_emails]
    split
    · rfl
    · rw [hempty]

/-- C6, witness: with a creator found by id, its email is excluded from the
matched recipients, and with no resolvable name the default recipient is
returned. -/
theorem c6_recipient_invariant_witness :
    "bob@x.com" ∉ matchedEmails ["Bob B", "Carol C"]
      [.dict { id := some "u1", email := some "bob@x.com", firstName := some "Bob",
               lastName := some "B" },
       .dict { id := some "u2", email := some "carol@x.com", firstName := some "Carol",
               lastName := some "C" }] "u1" ∧
    smart_match_participant_emails ["Nobody Known"]
      [.dict { id := some "u1", email := some "bob@x.com", firstName := some "Bob",
               lastName := some "B" },
       .dict { id := some "u2", email := some "carol@x.com", firstName := some "Carol",
               lastName := some "C" }] "u1" =
      get_default_participant_email
        [.dict { id := some "u1", email := some "bob@x.com", firstName := some "Bob",
                 lastName := some "B" },
         .dict { id := some "u2", email := some "carol@x.com", firstName := some "Carol",
                 lastName := some "C" }] "u1" := by
  constructor
  · exact (c6_recipient_invariant ["Bob B", "Carol C"]
      [.dict { id := some "u1", email := some "bob@x.com", firstName := some "Bob",
               lastName := some "B" },
       .dict { id := some "u2", email := some "carol@x.com", firstName := some "Carol",
               lastName := some "C" }] "u1").2.1 "bob@x.com" (by decide)
  · exact (c6_recipient_invariant ["Nobody Known"]
      [.dict { id := some "u1", email := some "bob@x.com", firstName := some "Bob",
               lastName := some "B" },
       .dict { id := some "u2", email := some "carol@x.com", firstName := some "Carol",
               lastName := some "C" }] "u1").2.2 (by decide)

/-! ## C10: totality and shape of extract_json_from_response -/

/-- Leading non-whitespace characters pass through `skipWs`. -/
theorem skipWs_lbracket (r : List Char) : skipWs ('[' :: r) = '[' :: r := by
  rw [skipWs, if_neg]
  decide

/-- The first-index lemma: the list drops to the searched character. -/
theorem firstIdxOf_drop {c : Char} : ∀ {cs : List Char} {i : Nat},
    firstIdxOf c cs = some i → ∃ r, cs.drop i = c :: r := by
  intro cs
  induction cs with
  | nil => intro i h; cases h
  | cons x xs ih =>
    intro i h
    rw [firstIdxOf] at h
    split at h
    · cases h
      rename_i hx
      exact ⟨xs, by rw [hx]; rfl⟩
    · cases hxs : firstIdxOf c xs with
      | none => rw [hxs] at h; cases h
      | some i' =>
        rw [hxs] at h
        cases h
        obtain ⟨r, hr⟩ := ih hxs
        exact ⟨r, hr⟩

/-- A value parsed by `pVal` from input that starts with an opening bracket
is an array. -/
theorem pVal_lbracket : ∀ (fuel : Nat) (r : List Char) (v : PyJson) (rest : List Char),
    pVal fuel ('[' :: r) = some (v, rest) → v.isArr = true := by
  intro fuel r v rest h
  cases fuel with
  | zero => cases h
  | succ fuel =>
    rw [pVal, skipWs_lbracket] at h
    dsimp only at h
    rw [if_pos rfl] at h
    cases hloop : pArrLoop fuel r [] with
    | none => rw [hloop] at h; cases h
    | some pr =>
      obtain ⟨l, r'⟩ := pr
      rw [hloop] at h
      cases h
      rfl

/-- A successful `json_loads` on a string whose characters start with an
opening bracket yields an array. -/
theorem json_loads_lbracket (s : String) (r : List Char) (hr : s.data = '[' :: r)
    (v : PyJson) (h : json_loads s = some v) : v.isArr = true := by
  rw [json_loads] at h
  cases hp : pVal (2 * s.data.length + 2) s.data with
  | none => rw [hp] at h; cases h
  | some pr =>
    obtain ⟨v0, rest⟩ := pr
    rw [hp] at h
    dsimp only at h
    split at h
    · cases h
      rw [hr] at hp
      exact pVal_lbracket _ _ _ _ hp
    · cases h

/-- A greedy span starts with an opening bracket. -/
theorem greedyArraySpan_head {cs span : List Char}
    (h : greedyArraySpan cs = some span) : ∃ r, span = '[' :: r := by
  rw [greedyArraySpan] at h
  cases hi : firstIdxOf '[' cs with
  | none => rw [hi] at h; cases h
  | some i =>
    cases hj : lastIdxOf ']' cs with
    | none => rw [hi, hj] at h; cases h
    | some j =>
      rw [hi, hj] at h
      dsimp only at h
      split at h
      · cases h
        obtain ⟨r, hr⟩ := firstIdxOf_drop hi
        rw [hr]
        exact ⟨r.take (j - i), by rw [List.take_succ_cons]⟩
      · cases h

/-- C10, counterexample.  The claim states the function returns a Python
list for every input.  Through the code-fence path it returns whatever JSON
value parses between the fences — here an object, not a list. -/
theorem c10_counterexample :
    extract_json_from_response "```json\n\x7b\"a\": 1\x7d\n```" =
      .obj [("a", .num 1)] ∧
    (extract_json_from_response "```json\n\x7b\"a\": 1\x7d\n```").isArr = false :=
  ⟨rfl, rfl⟩

/-- C10, amended.  `extract_json_from_response` is total and each of its
extraction paths is characterised: when the greedy first-`[`-to-last-`]`
span exists, the result is that span's parse — an array whenever the parse
succeeds — or the empty list on parse failure; when neither the span nor the
json code fence exists, the result is the empty list; when only the code
fence exists, the result is whatever JSON value parses between the fences
(or the empty list), which need not be a list.  Exceptions from the JSON
parser are absorbed on every path. -/
theorem c10_extract_json_total (text : String) :
    (∀ span, greedyArraySpan (trimStr text).data = some span →
      extract_json_from_response text =
        (match json_loads (String.mk span) with
         | some v => v
         | none => .arr []) ∧
      (∀ v, json_loads (String.mk span) = some v → v.isArr = true)) ∧
    (greedyArraySpan (trimStr text).data = none →
      (startsWithStr (trimStr text) "[" && endsWithStr (trimStr text) "]") = false →
      (subIdx ("```json".data) (trimStr text).data).isSome = false →
      extract_json_from_response text = .arr []) ∧
    (greedyArraySpan (trimStr text).data = none →
      (startsWithStr (trimStr text) "[" && endsWithStr (trimStr text) "]") = false →
      ∀ body, fenceSlice (trimStr text).data = some body →
      extract_json_from_response text =
        (match json_loads body with
         | some v => v
         | none => .arr [])) := by
  refine ⟨?_, ?_, ?_⟩
  · intro span hspan
    constructor
    · rw [extract_json_from_response]
      rw [hspan]
    · intro v hv
      obtain ⟨r, hr⟩ := greedyArraySpan_head hspan
      exact json_loads_lbracket _ r (by rw [hr]) v hv
  · intro hnone hsw hfence
    rw [extract_json_from_response, hnone]
    dsimp only
    rw [if_neg (by simp [hsw]), if_neg (by simp [hfence])]
    rw [bracketFallback, hnone]
  · intro hnone hsw body hbody
    have hfence : (subIdx ("```json".data) (trimStr text).data).isSome = true := by
      rw [fenceSlice] at hbody
      cases hk : subIdx ("```json".data) (trimStr text).data with
      | none => rw [hk] at hbody; cases hbody
      | some k => rfl
    rw [extract_json_from_response, hnone]
    dsimp only
    rw [if_neg (by simp [hsw]), if_pos hfence, hbody]

/-- C10, witness: the greedy path extracts the first well-formed array, and
input with no array and no fence yields the empty list. -/
theorem c10_extract_json_total_witness :
    extract_json_from_response "noise [1, 2] noise" = .arr [.num 1, .num 2] ∧
    extract_json_from_response "no json at all" = .arr [] := by
  constructor
  · have h := ((c10_extract_json_total "noise [1, 2] noise").1
      ("[1, 2]".data) (by decide)).1
    exact h
  · exact (c10_extract_json_total "no json at all").2.1 (by decide)
      (by decide) (by decide)

/-! ## C2 and C3: parallel coordinator -/

/-- The summary branch writes a value determined by the outcome alone. -/
theorem applyOne_summary_val (ctx : CoordCtx) (s : CoordGenState)
    (r : Except String GenResult) :
    (applyOne ctx s .summary r).final_summary =
      some (match r with
            | .error _ => .objRes (.summaryItem (create_error_summary
                ctx.organization_id ctx.department_id ctx.attendees ctx.meeting_date))
            | .ok v => v) := by
  cases r <;> rfl

theorem applyOne_performance_val (ctx : CoordCtx) (s : CoordGenState)
    (r : Except String GenResult) :
    (applyOne ctx s .performance r).final_performance_records =
      (match r with
       | .error _ => []
       | .ok v => listWrap v) := by
  cases r <;> rfl

theorem applyOne_tasks_val (ctx : CoordCtx) (s : CoordGenState)
    (r : Except String GenResult) :
    (applyOne ctx s .tasks r).final_tasks =
      (match r with
       | .error _ => []
       | .ok v => (listWrap v).map validate_subtasks_item) := by
  cases r <;> rfl

theorem applyOne_content_val (ctx : CoordCtx) (s : CoordGenState)
    (r : Except String GenResult) :
    (applyOne ctx s .content r).final_content =
      (match r with
       | .error _ => []
       | .ok v => listWrap v) := by
  cases r <;> rfl

/-- Branches of other names never write the summary accumulator. -/
theorem applyOne_summary_ne (ctx : CoordCtx) (s : CoordGenState)
    (r : Except String GenResult) (n : TaskName) (h : n ≠ .summary) :
    (applyOne ctx s n r).final_summary = s.final_summary := by
  cases r <;> cases n <;> first | rfl | exact absurd rfl h

theorem applyOne_performance_ne (ctx : CoordCtx) (s : CoordGenState)
    (r : Except String GenResult) (n : TaskName) (h : n ≠ .performance) :
    (applyOne ctx s n r).final_performance_records = s.final_performance_records := by
  cases r <;> cases n <;> first | rfl | exact absurd rfl h

theorem applyOne_tasks_ne (ctx : CoordCtx) (s : CoordGenState)
    (r : Except String GenResult) (n : TaskName) (h : n ≠ .tasks) :
    (applyOne ctx s n r).final_tasks = s.final_tasks := by
  cases r <;> cases n <;> first | rfl | exact absurd rfl h

theorem applyOne_content_ne (ctx : CoordCtx) (s : CoordGenState)
    (r : Except String GenResult) (n : TaskName) (h : n ≠ .content) :
    (applyOne ctx s n r).final_content = s.final_content := by
  cases r <;> cases n <;> first | rfl | exact absurd rfl h

/-- One loop step preserves field-wise agreement away from the excluded
name, provided the two outcomes agree whenever the step's name is not the
excluded one. -/
theorem applyOne_offEq (ctx : CoordCtx) (excluded : TaskName) {s s' : CoordGenState}
    (n : TaskName) (r r' : Except String GenResult)
    (hr : n ≠ excluded → r = r') (hs : offEq excluded s s') :
    offEq excluded (applyOne ctx s n r) (applyOne ctx s' n r') := by
  refine ⟨?_, ?_, ?_, ?_⟩
  · intro hm
    by_cases hn : n = TaskName.summary
    · subst hn
      rw [applyOne_summary_val, applyOne_summary_val,
        hr (fun he => hm he.symm)]
    · rw [applyOne_summary_ne ctx s r n hn, applyOne_summary_ne ctx s' r' n hn]
      exact hs.1 hm
  · intro hm
    by_cases hn : n = TaskName.performance
    · subst hn
      rw [applyOne_performance_val, applyOne_performance_val,
        hr (fun he => hm he.symm)]
    · rw [applyOne_performance_ne ctx s r n hn, applyOne_performance_ne ctx s' r' n hn]
      exact hs.2.1 hm
  · intro hm
    by_cases hn : n = TaskName.tasks
    · subst hn
      rw [applyOne_tasks_val, applyOne_tasks_val, hr (fun he => hm he.symm)]
    · rw [applyOne_tasks_ne ctx s r n hn, applyOne_tasks_ne ctx s' r' n hn]
      exact hs.2.2.1 hm
  · intro hm
    by_cases hn : n = TaskName.content
    · subst hn
      rw [applyOne_content_val, applyOne_content_val, hr (fun he => hm he.symm)]
    · rw [applyOne_content_ne ctx s r n hn, applyOne_content_ne ctx s' r' n hn]
      exact hs.2.2.2 hm

/-- The whole result-processing loop preserves field-wise agreement away
from the excluded name when the two outcome assignments agree away from
it — gather-with-exceptions independence. -/
theorem processResults_offEq (ctx : CoordCtx) (excluded : TaskName)
    (gen gen' : TaskName → Except String GenResult)
    (hg : ∀ n, n ≠ excluded → gen n = gen' n) :
    ∀ (names : List TaskName) (s s' : CoordGenState), offEq excluded s s' →
    offEq excluded (processResults ctx s (names.map (fun n => (n, gen n))))
      (processResults ctx s' (names.map (fun n => (n, gen' n)))) := by
  intro names
  induction names with
  | nil => exact fun s s' hs => hs
  | cons n rest ih =>
    intro s s' hs
    exact ih _ _ (applyOne_offEq ctx excluded n (gen n) (gen' n) (hg n) hs)

/-- With `tasks_detected`, a raised Tasks sub-task leaves the tasks
accumulator empty after the loop. -/
theorem coordGen_tasks_error (gen : TaskName → Except String GenResult)
    (st : PState) (e : String) (htd : st.tasks_detected = true)
    (hf : gen .tasks = .error e) :
    (coordGen gen st).final_tasks = [] := by
  rw [coordGen, coordNames, htd]
  cases hc : st.content_detected && st.content_details_truthy
  · have hn : scheduledNames true st.content_detected st.content_details_truthy =
        [.summary, .performance, .tasks] := by
      simp [scheduledNames, hc]
    rw [hn]
    simp only [List.map, processResults]
    rw [applyOne_tasks_val, hf]
  · have hn : scheduledNames true st.content_detected st.content_details_truthy =
        [.summary, .performance, .tasks, .content] := by
      simp [scheduledNames, hc]
    rw [hn]
    simp only [List.map, processResults]
    rw [applyOne_tasks_ne _ _ _ _ (by decide), applyOne_tasks_val, hf]

/-- C2: with `tasks_detected`, if the Tasks sub-task raises, the merged
state has `tasks = []` while the Summary, Performance and Content merge
fields equal those of a run whose Tasks outcome is anything else (all other
outcomes unchanged); and in general, changing only the outcome of one
scheduled sub-task never changes the merged result of any sibling
sub-task. -/
theorem c2_coordinator_independence (st : PState)
    (gen gen' : TaskName → Except String GenResult) (cr : CreateOutcomes)
    (excluded : TaskName) (e : String) :
    (st.tasks_detected = true → gen .tasks = .error e →
      (∀ n, n ≠ TaskName.tasks → gen n = gen' n) →
      (parallel_coordinator_node gen cr st).tasks = [] ∧
      (parallel_coordinator_node gen cr st).meetingSummary =
        (parallel_coordinator_node gen' cr st).meetingSummary ∧
      (parallel_coordinator_node gen cr st).performanceRecords =
        (parallel_coordinator_node gen' cr st).performanceRecords ∧
      (parallel_coordinator_node gen cr st).generatedContent =
        (parallel_coordinator_node gen' cr st).generatedContent) ∧
    ((∀ n, n ≠ excluded → gen n = gen' n) →
      (excluded ≠ .summary →
        (parallel_coordinator_node gen cr st).meetingSummary =
          (parallel_coordinator_node gen' cr st).meetingSummary) ∧
      (excluded ≠ .performance →
        (parallel_coordinator_node gen cr st).performanceRecords =
          (parallel_coordinator_node gen' cr st).performanceRecords) ∧
      (excluded ≠ .tasks →
        (parallel_coordinator_node gen cr st).tasks =
          (parallel_coordinator_node gen' cr st).tasks) ∧
      (excluded ≠ .content →
        (parallel_coordinator_node gen cr st).generatedContent =
          (parallel_coordinator_node gen' cr st).generatedContent)) := by
  have hfields : ∀ (g g' : TaskName → Except String GenResult) (ex : TaskName),
      (∀ n, n ≠ ex → g n = g' n) →
      (ex ≠ .summary →
        (parallel_coordinator_node g cr st).meetingSummary =
          (parallel_coordinator_node g' cr st).meetingSummary) ∧
      (ex ≠ .performance →
        (parallel_coordinator_node g cr st).performanceRecords =
          (parallel_coordinator_node g' cr st).performanceRecords) ∧
      (ex ≠ .tasks →
        (parallel_coordinator_node g cr st).tasks =
          (parallel_coordinator_node g' cr st).tasks) ∧
      (ex ≠ .content →
        (parallel_coordinator_node g cr st).generatedContent =
          (parallel_coordinator_node g' cr st).generatedContent) := by
    intro g g' ex hg
    have hoff : offEq ex (coordGen g st) (coordGen g' st) :=
      processResults_offEq (coordCtxOf st) ex g g' hg (coordNames st) {} {}
        ⟨fun _ => rfl, fun _ => rfl, fun _ => rfl, fun _ => rfl⟩
    refine ⟨?_, ?_, ?_, ?_⟩
    · intro hm
      show (if truthyGen (coordRepaired g st).final_summary
            then (coordRepaired g st).final_summary else none) =
          (if truthyGen (coordRepaired g' st).final_summary
            then (coordRepaired g' st).final_summary else none)
      have : (coordRepaired g st).final_summary = (coordRepaired g' st).final_summary :=
        hoff.1 hm
      rw [this]
    · intro hm
      show (coordRepaired g st).final_performance_records =
        (coordRepaired g' st).final_performance_records
      exact hoff.2.1 hm
    · intro hm
      show (coordRepaired g st).final_tasks = (coordRepaired g' st).final_tasks
      show (coordGen g st).final_tasks.map _ = (coordGen g' st).final_tasks.map _
      rw [hoff.2.2.1 hm]
    · intro hm
      show (coordRepaired g st).final_content = (coordRepaired g' st).final_content
      show (coordGen g st).final_content.map _ = (coordGen g' st).final_content.map _
      rw [hoff.2.2.2 hm]
  constructor
  · intro htd hf hg
    have htasks : (parallel_coordinator_node gen cr st).tasks = [] := by
      show (coordRepaired gen st).final_tasks = []
      show (coordGen gen st).final_tasks.map _ = []
      rw [coordGen_tasks_error gen st e htd hf]
      rfl
    have h := hfields gen gen' TaskName.tasks hg
    exact ⟨htasks, h.1 (by decide), h.2.1 (by decide), h.2.2.2 (by decide)⟩
  · exact hfields gen gen' excluded

/-- C2, witness: a concrete run whose Tasks sub-task raises yields no tasks
while the sibling merge fields match the run whose Tasks sub-task
succeeded. -/
theorem c2_coordinator_independence_witness :
    (parallel_coordinator_node
      (fun n => match n with
        | .tasks => .error "boom"
        | _ => .ok (.listRes []))
      {} { tasks_detected := true }).tasks = [] ∧
    (parallel_coordinator_node
      (fun n => match n with
        | .tasks => .error "boom"
        | _ => .ok (.listRes []))
      {} { tasks_detected := true }).meetingSummary =
      (parallel_coordinator_node (fun _ => .ok (.listRes []))
        {} { tasks_detected := true }).meetingSummary := by
  have h := (c2_coordinator_independence { tasks_detected := true }
    (fun n => match n with
      | .tasks => .error "boom"
      | _ => .ok (.listRes []))
    (fun _ => .ok (.listRes [])) {} .tasks "boom").1
    rfl rfl (by intro n hn; cases n <;> first | rfl | exact absurd rfl hn)
  exact ⟨h.1, h.2.1⟩

/-- C3, helper: the unguarded creation steps never write the task or
content id keys. -/
theorem creationSummaryStep_ids (g : CoordGenState) (iid : InitialIds)
    (o : CreateOutcomes) :
    (creationSummaryStep g iid o).task_ids = iid.task_ids ∧
    (creationSummaryStep g iid o).content_ids = iid.content_ids ∧
    (creationSummaryStep g iid o).summary_id = iid.summary_id := by
  rw [creationSummaryStep]
  split
  · cases o.update_summary <;> exact ⟨rfl, rfl, rfl⟩
  · exact ⟨rfl, rfl, rfl⟩

theorem creationPerfStep_ids (g : CoordGenState) (iid : InitialIds)
    (o : CreateOutcomes) :
    (creationPerfStep g iid o).task_ids = iid.task_ids ∧
    (creationPerfStep g iid o).content_ids = iid.content_ids ∧
    (creationPerfStep g iid o).summary_id = iid.summary_id := by
  rw [creationPerfStep]
  split
  · cases o.create_performance <;> exact ⟨rfl, rfl, rfl⟩
  · exact ⟨rfl, rfl, rfl⟩

/-- A disabled tasks-detected flag makes the task-creation step a no-op. -/
theorem creationTasksStep_not_detected (g : CoordGenState) (iid : InitialIds)
    (o : CreateOutcomes) : creationTasksStep false g iid o = iid := by
  rw [creationTasksStep]
  simp

/-- A disabled content-detected flag makes the content-creation step a
no-op. -/
theorem creationContentStep_not_detected (g : CoordGenState) (iid : InitialIds)
    (o : CreateOutcomes) : creationContentStep false g iid o = iid := by
  rw [creationContentStep]
  simp

/-- C3: the coordinator always schedules Summary and Performance, schedules
Tasks exactly when `tasks_detected` and Content exactly when
`content_detected` with truthy content details; with both flags false
exactly the two unconditional sub-tasks are scheduled and the
`initial_ids.task_ids` and `initial_ids.content_ids` keys are left exactly
as they were. -/
theorem c3_coordinator_scheduling (td cd cdt : Bool) (st : PState)
    (gen : TaskName → Except String GenResult) (cr : CreateOutcomes) :
    (TaskName.summary ∈ scheduledNames td cd cdt ∧
     TaskName.performance ∈ scheduledNames td cd cdt ∧
     (TaskName.tasks ∈ scheduledNames td cd cdt ↔ td = true) ∧
     (TaskName.content ∈ scheduledNames td cd cdt ↔ (cd && cdt) = true)) ∧
    (st.tasks_detected = false → st.content_detected = false →
      coordNames st = [.summary, .performance] ∧
      (parallel_coordinator_node gen cr st).initial_ids.task_ids =
        st.initial_ids.task_ids ∧
      (parallel_coordinator_node gen cr st).initial_ids.content_ids =
        st.initial_ids.content_ids) := by
  constructor
  · cases td <;> cases cd <;> cases cdt <;> exact ⟨by decide, by decide, by decide, by decide⟩
  · intro htd hcd
    refine ⟨by rw [coordNames, htd, hcd]; rfl, ?_, ?_⟩
    · show (creationPhase st.tasks_detected st.content_detected
        (coordRepaired gen st) st.initial_ids cr).task_ids = st.initial_ids.task_ids
      rw [creationPhase, htd, hcd, creationContentStep_not_detected,
        creationTasksStep_not_detected,
        (creationPerfStep_ids _ _ _).1, (creationSummaryStep_ids _ _ _).1]
    · show (creationPhase st.tasks_detected st.content_detected
        (coordRepaired gen st) st.initial_ids cr).content_ids = st.initial_ids.content_ids
      rw [creationPhase, htd, hcd, creationContentStep_not_detected,
        creationTasksStep_not_detected,
        (creationPerfStep_ids _ _ _).2.1, (creationSummaryStep_ids _ _ _).2.1]

/-- C3, witness: with both flags false, a concrete run schedules exactly
Summary and Performance and leaves the id keys unset. -/
theorem c3_coordinator_scheduling_witness :
    coordNames ({} : PState) = [.summary, .performance] ∧
    (parallel_coordinator_node (fun _ => .ok (.listRes [])) {}
      ({} : PState)).initial_ids.task_ids = none := by
  have h := (c3_coordinator_scheduling false false false ({} : PState)
    (fun _ => .ok (.listRes [])) {}).2 rfl rfl
  exact ⟨h.1, h.2.1⟩

/-! ## C4: two-phase summary writer failure tolerance -/

/-- The task- and content-creation steps never write the summary id. -/
theorem creationTasksStep_summary_id (td : Bool) (g : CoordGenState)
    (iid : InitialIds) (o : CreateOutcomes) :
    (creationTasksStep td g iid o).summary_id = iid.summary_id := by
  rw [creationTasksStep]
  split
  · cases o.create_tasks <;> rfl
  · rfl

theorem creationContentStep_summary_id (cd : Bool) (g : CoordGenState)
    (iid : InitialIds) (o : CreateOutcomes) :
    (creationContentStep cd g iid o).summary_id = iid.summary_id := by
  rw [creationContentStep]
  split
  · cases o.create_content <;> rfl
  · rfl

/-- The coordinator never changes a stored summary id (the `initial_ids`
invariant: once set, the placeholder id is also never cleared). -/
theorem coordinator_summary_id (gen : TaskName → Except String GenResult)
    (cr : CreateOutcomes) (st : PState) :
    (parallel_coordinator_node gen cr st).initial_ids.summary_id =
      st.initial_ids.summary_id := by
  show (creationPhase st.tasks_detected st.content_detected
    (coordRepaired gen st) st.initial_ids cr).summary_id = st.initial_ids.summary_id
  rw [creationPhase, creationContentStep_summary_id, creationTasksStep_summary_id,
    (creationPerfStep_ids _ _ _).2.2, (creationSummaryStep_ids _ _ _).2.2]

/-- C4, counterexample.  The claim states that after `createSummary` returns
the empty string the pipeline runs to completion through the Report stage.
Instead the Summary-Generation stage raises on the missing id, so the whole
run aborts with an error before Report. -/
theorem c4_counterexample :
    pipeline_from_analysis true false false false (.ok "") (fun _ => .ok (.listRes []))
      {} (sampleSummary "final text") (.ok true) [] (.ok []) stPre =
      .error "Missing summary_id for updating dummy summary" := rfl

/-- C4, amended.  When `createSummary` returns the empty string during
Analyze, the Analyze stage itself continues (storing the empty id), but the
Summary-Generation stage then raises `ValueError` on the missing summary id
and the pipeline aborts before the Report stage.  Had the Report stage run
on such a state, it would indeed report `operations_performed.summary ==
"failed"` and overall `success == False`. -/
theorem c4_summary_failure_tolerance (st : PState)
    (gen : TaskName → Except String GenResult) (cr : CreateOutcomes)
    (fs : MeetingSummaryM) (upd : Except String Bool)
    (pr : List PerfRecM) (bulk : Except String (List String)) (td cd cdt : Bool) :
    (pipeline_from_analysis true td cd cdt (.ok "") gen cr fs upd pr bulk st =
      .error "Missing summary_id for updating dummy summary") ∧
    (∀ st' : PState, st'.initial_ids.summary_id.getD "" = "" →
      (storage_response_node st').final_response.map FinalResponse.success =
        some false ∧
      (storage_response_node st').final_response.map FinalResponse.ops_summary =
        some "failed") := by
  constructor
  · have h1 : (analysis_dummy_phase true td cd cdt (.ok "") st).initial_ids.summary_id
        = some "" := rfl
    have hsid : (parallel_coordinator_node gen cr
        (analysis_dummy_phase true td cd cdt (.ok "") st)).initial_ids.summary_id
        = some "" := by
      rw [coordinator_summary_id, h1]
    have hgen : summary_generation_node fs upd (parallel_coordinator_node gen cr
        (analysis_dummy_phase true td cd cdt (.ok "") st)) =
        .error "Missing summary_id for updating dummy summary" := by
      dsimp only [summary_generation_node]
      rw [hsid]
      rfl
    dsimp only [pipeline_from_analysis]
    rw [hgen]
  · intro st' hsid
    dsimp only [storage_response_node]
    rw [hsid]
    constructor
    · simp
    · simp

/-- C4, witness: the abort and the would-be report on a concrete state. -/
theorem c4_summary_failure_tolerance_witness :
    pipeline_from_analysis true false false false (.ok "") (fun _ => .ok (.listRes []))
      {} (sampleSummary "final text") (.ok true) [] (.ok []) stPre =
      .error "Missing summary_id for updating dummy summary" ∧
    (storage_response_node stEmptyId).final_response.map FinalResponse.ops_summary =
      some "failed" := by
  have h := c4_summary_failure_tolerance stPre (fun _ => .ok (.listRes [])) {}
    (sampleSummary "final text") (.ok true) [] (.ok []) false false false
  exact ⟨h.1, (h.2 stEmptyId rfl).2⟩

/-! ## C5: status monotonicity -/

/-- C5, counterexample.  The performance-records stage returns a state with
status Failure (missing transcription); the Report stage that follows it
nevertheless returns status `"success"` with `success = true`, because its
report is computed from the stored ids and detection flags alone. -/
theorem c5_counterexample :
    (performance_records_node [] (.ok []) stFail).status = "failure" ∧
    (storage_response_node (performance_records_node [] (.ok []) stFail)).status =
      "success" ∧
    (storage_response_node (performance_records_node [] (.ok []) stFail)).final_response.map
      FinalResponse.success = some true :=
  ⟨rfl, rfl, rfl⟩

/-- C5, amended.  The Report stage's final status is computed from
`initial_ids` and the detection flags alone: it is `"success"` exactly when
the summary id is present and detected tasks and content have stored ids,
and it is `"partial_failure"` otherwise; it never reads the incoming status,
so an earlier Failure propagates to the report only insofar as it left those
ids missing. -/
theorem c5_report_status (st : PState) (s1 s2 : String) :
    ((storage_response_node st).status = "success" ↔
      ((st.initial_ids.summary_id.getD "" == "") = false ∧
       (st.tasks_detected && (st.initial_ids.task_ids.getD []).isEmpty) = false ∧
       (st.content_detected && (st.initial_ids.content_ids.getD []).isEmpty) = false)) ∧
    ((storage_response_node st).status = "success" ∨
      (storage_response_node st).status = "partial_failure") ∧
    (storage_response_node { st with status := s1 }).status =
      (storage_response_node { st with status := s2 }).status := by
  refine ⟨?_, ?_, rfl⟩
  · dsimp only [storage_response_node]
    cases hc1 : (st.initial_ids.summary_id.getD "" == "") <;>
      cases hc2 : st.tasks_detected && (st.initial_ids.task_ids.getD []).isEmpty <;>
        cases hc3 : st.content_detected && (st.initial_ids.content_ids.getD []).isEmpty <;>
          simp [hc1, hc2, hc3]
  · dsimp only [storage_response_node]
    cases hc1 : (st.initial_ids.summary_id.getD "" == "") <;>
      cases hc2 : st.tasks_detected && (st.initial_ids.task_ids.getD []).isEmpty <;>
        cases hc3 : st.content_detected && (st.initial_ids.content_ids.getD []).isEmpty <;>
          simp [hc1, hc2, hc3]

/-- C5, witness: a report state with all ids present is marked success, and
the report status ignores the incoming status value. -/
theorem c5_report_status_witness :
    ((storage_response_node stFail).status = "success" ↔
      ((stFail.initial_ids.summary_id.getD "" == "") = false ∧
       (stFail.tasks_detected && (stFail.initial_ids.task_ids.getD []).isEmpty) = false ∧
       (stFail.content_detected && (stFail.initial_ids.content_ids.getD []).isEmpty) = false)) ∧
    (storage_response_node { stFail with status := "failure" }).status =
      (storage_response_node { stFail with status := "pending" }).status := by
  have h := c5_report_status stFail "failure" "pending"
  exact ⟨h.1, h.2.2⟩

end AlignAI
